import Mathlib

/-!
Verification development for the ZipRecruiter scraper repository
(`improved_ziprecruiter_scraper.py` and `run_improved_ziprecruiter.py`).

The Python code is shallowly embedded: every in-repository computation on
strings, lists and dictionaries is translated into executable Lean functions,
while the external libraries (the `re` module for the patterns that are only
consumed opaquely, and BeautifulSoup's DOM operations) are abstracted into an
oracle structure `PyEnv` that the theorems quantify over.  Python dictionaries
are modelled as ordered association lists, Python `None`/absent values as
`Option`, Python exceptions as `Except Unit`, and Python floats as exact
rationals (only order and equality of parsed numbers matter to the claims,
and float conversion of decimal numerals is monotone).
-/

namespace ZRS

/-! ## Python string primitives -/

/-- Whitespace characters recognised by Python's `str.strip` and `\s` (ASCII). -/
def isPyWs (c : Char) : Bool :=
  c = ' ' || c = '\t' || c = '\n' || c = '\r' || c = '\x0b' || c = '\x0c'

/-- Python `str.strip()`: drop leading and trailing whitespace. -/
def pyStrip (s : String) : String :=
  ⟨((s.data.dropWhile isPyWs).reverse.dropWhile isPyWs).reverse⟩

/-- Python `str.lower()` (ASCII case folding; the strings involved are ASCII
apart from currency signs and bullets, which have no case). -/
def pyLower (s : String) : String := ⟨s.data.map Char.toLower⟩

/-- Python `str.upper()` (ASCII). -/
def pyUpper (s : String) : String := ⟨s.data.map Char.toUpper⟩

/-- Helper for the substring test: does `n` occur in the second list? -/
def containsAux (n : List Char) : List Char → Bool
  | [] => n.isEmpty
  | c :: cs => n.isPrefixOf (c :: cs) || containsAux n cs

/-- Python substring test `needle in hay`. -/
def pyContains (needle hay : String) : Bool := containsAux needle.data hay.data

/-- Python `s.startswith(p)`. -/
def pyStartsWith (s p : String) : Bool := p.data.isPrefixOf s.data

/-- Helper for Python `str.split()` with no argument: accumulate the current
word (reversed) and cut at whitespace runs, producing no empty words. -/
def pyWordsAux (cur : List Char) : List Char → List (List Char)
  | [] => if cur.isEmpty then [] else [cur.reverse]
  | c :: cs =>
    if isPyWs c then
      if cur.isEmpty then pyWordsAux [] cs else cur.reverse :: pyWordsAux [] cs
    else pyWordsAux (c :: cur) cs

/-- Python `str.split()` with no argument. -/
def pyWords (s : String) : List String := (pyWordsAux [] s.data).map String.mk

/-- Helper for Python `s.split('\n')`: split at every newline, keeping empty
pieces. -/
def splitNlAux : List Char → List (List Char)
  | [] => [[]]
  | c :: cs =>
    if c = '\n' then [] :: splitNlAux cs
    else
      match splitNlAux cs with
      | [] => [[c]]
      | w :: ws => (c :: w) :: ws

/-- Python `s.split('\n')`. -/
def pySplitLines (s : String) : List String := (splitNlAux s.data).map String.mk

/-! ## Concrete scanners for the fixed regular expressions of `extract_salary`

The salary-processing step (scraper lines 234-291) uses three fixed regular
expressions — the currency alternation, the period alternation and the numeral
`findall` — whose results feed directly into the claims; they are implemented
here as concrete, executable scanners with Python `re` semantics (leftmost
match, alternatives in source order, greedy repetition). -/

/-- Case-insensitive prefix test: does `l` begin with the (lowercase) `pat`? -/
def ciPrefix (pat l : List Char) : Bool :=
  pat.isPrefixOf ((l.take pat.length).map Char.toLower)

/-- Alternatives of the currency regex `[£$€]|GBP|USD|EUR|pounds|euros|dollars`,
in matching order (the character class first, then the alternation order). -/
def currencyAlts : List String :=
  ["£", "$", "€", "GBP", "USD", "EUR", "pounds", "euros", "dollars"]

/-- Match length of the currency regex at the head of `l` (case-insensitive). -/
def currencyAt (l : List Char) : Option Nat :=
  currencyAlts.findSome? (fun a =>
    if ciPrefix (pyLower a).data l then some a.length else none)

/-- Generic left-to-right `re.search`: scan positions, return the matched text
(original case) of the first position where `matchAt` succeeds. -/
def searchScan (matchAt : List Char → Option Nat) : List Char → Option (List Char)
  | [] => none
  | c :: cs =>
    match matchAt (c :: cs) with
    | some k => some ((c :: cs).take k)
    | none => searchScan matchAt cs

/-- `re.search` of the currency regex over `s` (group 0). -/
def currencySearch (s : String) : Option String :=
  (searchScan currencyAt s.data).map String.mk

/-- Words of the period regex groups `(year|annum|month|hour|day|week)`. -/
def periodWords : List String := ["year", "annum", "month", "hour", "day", "week"]

/-- Match length of the period word group at the head of `l`. -/
def wordAltAt (l : List Char) : Option Nat :=
  periodWords.findSome? (fun w => if ciPrefix w.data l then some w.length else none)

/-- Python word characters, for `\b`. -/
def isWordChar (c : Char) : Bool := c.isAlpha || c.isDigit || c = '_'

/-- Match length of the salary-period regex at the head of `l`: alternatives
"per" + whitespace + word, "/" + word, literal "p.a.", "pa" at a word boundary,
then the literals yearly, monthly, hourly, annual — in the source order
(scraper line 261), case-insensitively. -/
def periodAt (l : List Char) : Option Nat :=
  (if ciPrefix "per".data l then
     let rest := l.drop 3
     let ws := rest.takeWhile isPyWs
     if 0 < ws.length then
       match wordAltAt (rest.drop ws.length) with
       | some k => some (3 + ws.length + k)
       | none => none
     else none
   else none) <|>
  (match l with
   | '/' :: rest => (wordAltAt rest).map (fun k => 1 + k)
   | _ => none) <|>
  (if ciPrefix "p.a.".data l then some 4 else none) <|>
  (if ciPrefix "pa".data l then
     match l.drop 2 with
     | [] => some 2
     | d :: _ => if isWordChar d then none else some 2
   else none) <|>
  (if ciPrefix "yearly".data l then some 6 else none) <|>
  (if ciPrefix "monthly".data l then some 7 else none) <|>
  (if ciPrefix "hourly".data l then some 6 else none) <|>
  (if ciPrefix "annual".data l then some 6 else none)

/-- `re.search` of the period regex over `s` (group 0). -/
def periodSearch (s : String) : Option String :=
  (searchScan periodAt s.data).map String.mk

/-- Match length of the numeral regex (digits, then a greedy run of digits or
commas, then an optional dot-digits tail) at the head of `l`. -/
def numberAt (l : List Char) : Option Nat :=
  match l with
  | [] => none
  | c :: cs =>
    if c.isDigit then
      let body := cs.takeWhile (fun x => x.isDigit || x = ',')
      let rest := cs.drop body.length
      match rest with
      | '.' :: d :: _ =>
        if d.isDigit then
          let frac := (rest.drop 1).takeWhile Char.isDigit
          some (1 + body.length + 1 + frac.length)
        else some (1 + body.length)
      | _ => some (1 + body.length)
    else none

/-- Python `re.findall` of the numeral regex: all non-overlapping matches,
left to right.  The fuel, initialized to the text length, dominates the step
count because every step consumes at least one character; recursion on it
keeps the function kernel-reducible. -/
def findNumbersAux : Nat → List Char → List String
  | _, [] => []
  | 0, _ :: _ => []
  | fuel + 1, c :: cs =>
    match numberAt (c :: cs) with
    | some k => String.mk ((c :: cs).take k) :: findNumbersAux fuel (cs.drop (k - 1))
    | none => findNumbersAux fuel cs

/-- Numerals found in `s` by the salary `findall` (scraper line 277). -/
def findNumbers (s : String) : List String := findNumbersAux s.data.length s.data

/-- Value of a digit string. -/
def digitsVal (l : List Char) : Nat := l.foldl (fun a c => a * 10 + (c.toNat - 48)) 0

/-- Python `float(n.replace(',', ''))` on a matched numeral, as an exact
rational: integer part plus fractional part over the matching power of ten,
assembled with `mkRat` (the claims only compare parsed numbers, and
decimal-to-float conversion is monotone). -/
def parseNumQ (s : String) : ℚ :=
  let cs := s.data.filter (fun c => c ≠ ',')
  let ip := cs.takeWhile (fun c => c ≠ '.')
  let fp := cs.drop (ip.length + 1)
  mkRat ((digitsVal ip * 10 ^ fp.length + digitsVal fp : Nat) : Int) (10 ^ fp.length)

/-- Collapse each whitespace run to a single space (Python `re.sub(r'\s+', ' ', s)`);
the flag records whether the previous character was whitespace. -/
def collapseWsAux (inWs : Bool) : List Char → List Char
  | [] => []
  | c :: cs =>
    if isPyWs c then
      if inWs then collapseWsAux true cs else ' ' :: collapseWsAux true cs
    else c :: collapseWsAux false cs

/-- Collapse whitespace runs (Python `re.sub(r'\s+', ' ', s)`). -/
def collapseWs (l : List Char) : List Char := collapseWsAux false l

/-- Cleaning applied to a found salary text (scraper lines 236-237): newlines
and tabs to spaces, whitespace runs collapsed, then stripped. -/
def cleanWs (s : String) : String :=
  pyStrip ⟨collapseWs (s.data.map (fun c => if c = '\n' || c = '\t' then ' ' else c))⟩

/-! ## External-library interface -/

/-- Result of a BeautifulSoup element lookup: its text and optional `href`. -/
structure Elem where
  text : String
  href : Option String
deriving DecidableEq

/-- A potential header found by BeautifulSoup in a description HTML document
(runner lines 386-423), together with the texts of the sibling nodes gathered
after it up to the next potential header; the DOM traversal producing these is
external library behaviour. -/
structure Hdr where
  text : String
  content : List String
deriving DecidableEq

/-- Abstract interface to the external libraries: the `re` module for patterns
that are consumed opaquely (`reSearch` returns group 0, `reSearchG1` group 1,
`reFindall2` the list of pairs of the two groups), and the BeautifulSoup-based
pieces (`htmlHeaders` for the header/content harvest of `structure_description`,
and the DOM-rewriting bodies of `sanitize_html` / `format_html_to_text`).
Theorems quantify over this structure. -/
structure PyEnv where
  reSearch : String → String → Option String
  reSearchG1 : String → String → Option String
  reFindall2 : String → String → List (String × String)
  htmlHeaders : String → List Hdr
  sanitizeHtmlBody : String → String
  formatHtmlBody : String → String

/-- A job card element: CSS selector lookup (which, like the Python call, may
raise) and the full text of the card as returned by `get_text()`. -/
structure JobCard where
  selectOne : String → Except Unit (Option Elem)
  fullText : String

/-! ## `extract_salary` (scraper lines 173-295) -/

/-- Salary selectors tried in order (scraper lines 186-190). -/
def salary_selectors : List String :=
  [".salary", "[class*=\"salary\"]", ".compensation", "[class*=\"compensation\"]",
   ".pay", "[class*=\"pay\"]", ".wage", "[data-testid*=\"salary\"]",
   "[class*=\"money\"]", "[class*=\"amount\"]", ".job_salary"]

/-- Salary regex fallback patterns, in source order (scraper lines 212-218). -/
def salary_patterns : List String :=
  ["£\\s*\\d+[,\\d]*\\s*(?:-\\s*£\\s*\\d+[,\\d]*)?(?:\\s*(?:per|a|/)\\s*(?:year|annum|month|hour|yr|pa|p\\.a\\.|p/a))?",
   "\\$\\s*\\d+[,\\d]*\\s*(?:-\\s*\\$\\s*\\d+[,\\d]*)?(?:\\s*(?:per|a|/)\\s*(?:year|annum|month|hour|yr|pa|p\\.a\\.|p/a))?",
   "€\\s*\\d+[,\\d]*\\s*(?:-\\s*€\\s*\\d+[,\\d]*)?(?:\\s*(?:per|a|/)\\s*(?:year|annum|month|hour|yr|pa|p\\.a\\.|p/a))?",
   "\\d+[,\\d]*\\s*(?:-\\s*\\d+[,\\d]*)?\\s*(?:GBP|USD|EUR|pounds|euros|dollars)",
   "(?:salary|pay|compensation)[:\\s]*[£$€]?\\s*\\d+[,\\d]*\\s*(?:-\\s*[£$€]?\\s*\\d+[,\\d]*)?"]

/-- Stage one of `extract_salary` (lines 194-203): try each selector in order,
exceptions caught per selector, and keep the first stripped non-empty text. -/
def selectorSalaryText (card : JobCard) : Option String :=
  salary_selectors.findSome? (fun sel =>
    match card.selectOne sel with
    | .ok (some el) => if pyStrip el.text ≠ "" then some (pyStrip el.text) else none
    | _ => none)

/-- Stage two of `extract_salary` (lines 205-227): search each regex pattern in
order over the card's full text and strip the first match. -/
def regexSalaryText (env : PyEnv) (card : JobCard) : Option String :=
  (salary_patterns.findSome? (fun pat => env.reSearch pat card.fullText)).map pyStrip

/-- Salary record produced by `extract_salary` (lines 240-247). -/
structure SalaryData where
  text : String
  currency : Option String
  min : Option ℚ
  max : Option ℚ
  period : Option String
  is_range : Bool
deriving DecidableEq

/-- Python `min` over a nonempty list. -/
def listMinQ (x : ℚ) (xs : List ℚ) : ℚ := xs.foldl min x

/-- Python `max` over a nonempty list. -/
def listMaxQ (x : ℚ) (xs : List ℚ) : ℚ := xs.foldl max x

/-- Currency normalization (scraper lines 250-258). -/
def salaryCurrency (t : String) : Option String :=
  match currencySearch t with
  | some m =>
    let c := pyUpper m
    if c = "£" || c = "POUNDS" || c = "GBP" then some "GBP"
    else if c = "$" || c = "DOLLARS" || c = "USD" then some "USD"
    else if c = "€" || c = "EUROS" || c = "EUR" then some "EUR"
    else none
  | none => none

/-- Period normalization (scraper lines 260-274). -/
def salaryPeriod (t : String) : Option String :=
  match periodSearch t with
  | some m =>
    let p := pyLower m
    if pyContains "year" p || pyContains "annum" p || pyContains "pa" p
        || pyContains "p.a" p || pyContains "annual" p then some "yearly"
    else if pyContains "month" p then some "monthly"
    else if pyContains "hour" p then some "hourly"
    else if pyContains "day" p then some "daily"
    else if pyContains "week" p then some "weekly"
    else none
  | none => none

/-- Salary-text processing (scraper lines 234-291): cleaning, currency,
period, and numeric range extraction.  The exception fallback at lines
293-295 is unreachable because every step here is total. -/
def processSalaryText (raw : String) : SalaryData :=
  let t := cleanWs raw
  match (findNumbers t).map parseNumQ with
  | [] =>
    { text := t, currency := salaryCurrency t, min := none, max := none,
      period := salaryPeriod t, is_range := false }
  | [x] =>
    { text := t, currency := salaryCurrency t, min := some x, max := none,
      period := salaryPeriod t, is_range := false }
  | x :: y :: rest =>
    { text := t, currency := salaryCurrency t, min := some (listMinQ x (y :: rest)),
      max := some (listMaxQ x (y :: rest)), period := salaryPeriod t, is_range := true }

/-- `extract_salary` (scraper lines 173-295): selector stage, then regex stage,
`None` when the found text is missing or empty, otherwise the processed data. -/
def extract_salary (env : PyEnv) (card : JobCard) : Option SalaryData :=
  let salary_text :=
    match selectorSalaryText card with
    | some t => some t
    | none => regexSalaryText env card
  match salary_text with
  | none => none
  | some t => if t = "" then none else some (processSalaryText t)

/-! ## `extract_job_listings` (scraper lines 9-171)

The job-card discovery (lines 15-48) is BeautifulSoup selection over the raw
HTML; the per-card loop (lines 60-171) is embedded over the resulting list of
cards, which is taken as input. -/

/-- A job record, as the flat dictionary built by the scraper and consumed by
the runner.  Keys that the code may leave absent are `Option`s; `salary` is
always set by extraction but possibly to `None`, collapsed here into one
`Option`, which is sound because post-processing never reads it. -/
structure Job where
  id : String
  title : String
  url : String
  source : String
  country : String
  timestamp : String
  company : Option String := none
  location : Option String := none
  description : Option String := none
  salary : Option SalaryData := none
  job_type : Option String := none
  date_posted : Option String := none
  description_html : Option String := none
  formatted_description : Option String := none
  structured_description : Option (List (String × String)) := none
  standardized_job_type : Option String := none
  skills : Option (List String) := none
  experience : Option String := none
  is_uk : Option Bool := none
deriving DecidableEq

/-- Scraper state that the sources reference but never define: the `base_urls`
mapping (read only through `.get` with the ziprecruiter.com default, line 101),
the MD5 hex digest from `hashlib` (line 107), and the formatted current time
(line 117).  All three are abstract parameters of the embedding. -/
structure ScraperCfg where
  base_urls : String → Option String
  md5hex : String → String
  now : String

/-- Title selectors, in order (scraper line 71). -/
def title_selectors : List String :=
  ["h2", "h3", "a[href*=\"job\"] strong", "a[href*=\"job\"]", ".job-title", ".title"]

/-- URL selectors, in order (scraper line 86). -/
def url_selectors : List String :=
  ["a[href*=\"job\"]", "h2 a", "h3 a", ".job-title a", ".title a"]

/-- Company selectors (scraper line 121). -/
def company_selectors : List String :=
  [".company_name", ".company", "[class*=\"company\"]", ".hiring-company"]

/-- Location selectors (scraper line 129). -/
def location_selectors : List String :=
  [".location", "[class*=\"location\"]", "[class*=\"address\"]", ".job-location"]

/-- Description selectors (scraper line 137). -/
def description_selectors : List String :=
  [".job_snippet", ".description", ".snippet", "[class*=\"description\"]"]

/-- Job-type selectors (scraper line 148). -/
def job_type_selectors : List String :=
  [".job_type", ".employment_type", "[class*=\"type\"]"]

/-- Date selectors (scraper line 156). -/
def date_selectors : List String :=
  [".date", "[class*=\"posted\"]", ".job-age", ".posted-date"]

/-- Sponsored/promoted selector (scraper line 66). -/
def sponsored_selector : String := "[class*=\"sponsor\"], [class*=\"promoted\"]"

/-- One of the `for selector in ...` loops of the per-card extraction: first
selector whose element has non-empty stripped text.  A selector exception
propagates, because inside the card loop `select_one` is not individually
guarded. -/
def firstTextHit (card : JobCard) : List String → Except Unit (Option String)
  | [] => .ok none
  | sel :: rest => do
    match ← card.selectOne sel with
    | some el =>
      if pyStrip el.text ≠ "" then pure (some (pyStrip el.text))
      else firstTextHit card rest
    | none => firstTextHit card rest

/-- URL loop (scraper lines 86-92): first selector whose element has a truthy
`href`, returning that `href` unmodified. -/
def firstHrefHit (card : JobCard) : List String → Except Unit (Option String)
  | [] => .ok none
  | sel :: rest => do
    match ← card.selectOne sel with
    | some el =>
      match el.href with
      | some h => if h ≠ "" then pure (some h) else firstHrefHit card rest
      | none => firstHrefHit card rest
    | none => firstHrefHit card rest

/-- Default base URL used when the country is missing from `base_urls`. -/
def default_base_url : String := "https://www.ziprecruiter.com"

/-- Processing of a single job card (scraper lines 62-164, the body of the
`try`): skip sponsored cards and cards without title or URL (`.ok none`),
raise if a field lookup raises (`.error`), otherwise produce the record. -/
def processCard (cfg : ScraperCfg) (env : PyEnv) (card : JobCard)
    (country_code : String) : Except Unit (Option Job) := do
  match ← card.selectOne sponsored_selector with
  | some _ => pure none
  | none =>
    match ← firstTextHit card title_selectors with
    | none => pure none
    | some job_title =>
      match ← firstHrefHit card url_selectors with
      | none => pure none
      | some u =>
        let job_url :=
          if pyStartsWith u "http" then u
          else if pyStartsWith u "/" then
            ((cfg.base_urls country_code).getD default_base_url) ++ u
          else ((cfg.base_urls country_code).getD default_base_url) ++ "/" ++ u
        let job_id := cfg.md5hex job_url
        let company ← firstTextHit card company_selectors
        let location ← firstTextHit card location_selectors
        let description ← firstTextHit card description_selectors
        let salary := extract_salary env card
        let job_type ← firstTextHit card job_type_selectors
        let date_posted ← firstTextHit card date_selectors
        pure (some { id := job_id, title := job_title, url := job_url,
                     source := "ZipRecruiter", country := country_code,
                     timestamp := cfg.now, company := company, location := location,
                     description := description, salary := salary,
                     job_type := job_type, date_posted := date_posted })

/-- Outcome of one iteration of the card loop: the record appended to `jobs`,
or nothing when the card is skipped or its processing raised (the `except`
at lines 166-169 turns any exception into `continue`). -/
def cardResult (cfg : ScraperCfg) (env : PyEnv) (country_code : String)
    (card : JobCard) : Option Job :=
  match processCard cfg env card country_code with
  | .ok (some j) => some j
  | _ => none

/-- The per-card loop of `extract_job_listings` (scraper lines 60-171). -/
def extract_job_listings (cfg : ScraperCfg) (env : PyEnv)
    (job_cards : List JobCard) (country_code : String) : List Job :=
  job_cards.filterMap (cardResult cfg env country_code)

/-! ## Ordered dictionaries -/

/-- Python `d[k] = v` on an ordered dictionary: overwrite in place when the
key exists, else append. -/
def dUpsert (d : List (String × String)) (k v : String) : List (String × String) :=
  if d.any (fun p => p.1 = k) then d.map (fun p => if p.1 = k then (k, v) else p)
  else d ++ [(k, v)]

/-! ## `structure_description` (runner lines 356-560) -/

/-- Section keys and their header keywords (runner lines 371-379), in source
(insertion) order. -/
def sections_keywords : List (String × List String) :=
  [("about_company",
    ["about us", "about the company", "who we are", "company overview",
     "our company", "company description"]),
   ("job_overview",
    ["job overview", "position overview", "role overview", "about the job",
     "about the role", "job description", "summary", "overview"]),
   ("responsibilities",
    ["responsibilities", "duties", "what you\x27ll do", "your responsibilities",
     "key responsibilities", "role responsibilities", "job duties", "main duties",
     "essential duties", "the role", "day to day", "day-to-day"]),
   ("requirements",
    ["requirements", "qualifications", "what you need", "skills", "required skills",
     "must have", "experience required", "required experience", "essential skills",
     "you will need", "you\x27ll need", "we are looking for", "ideal candidate",
     "candidate profile", "who you are"]),
   ("nice_to_have",
    ["nice to have", "preferred", "bonus points", "plus", "desirable",
     "additional skills", "preferred qualifications", "preferred skills",
     "good to have"]),
   ("benefits",
    ["benefits", "perks", "what we offer", "compensation", "package", "salary",
     "rewards", "we provide", "we offer", "what\x27s in it for you",
     "what\x27s on offer", "what you\x27ll get"]),
   ("application_process",
    ["application process", "how to apply", "next steps", "apply", "apply now",
     "application procedure"])]

/-- First section key one of whose keywords is a substring of `t` (runner
lines 401-405 and 444-450: the loop breaks at the first matching key). -/
def findMatchedSection (t : String) : Option String :=
  sections_keywords.findSome? (fun p =>
    if p.2.any (fun kw => pyContains kw t) then some p.1 else none)

/-- HTML header pass (runner lines 391-423): header texts are stripped and
lowercased, empty or over-long headers skipped, and a matched section with
non-empty gathered content is recorded. -/
def htmlSectionContent (hdrs : List Hdr) : List (String × String) :=
  hdrs.foldl (fun acc h =>
    let ht := pyLower (pyStrip h.text)
    if ht = "" || 50 < ht.length then acc
    else
      match findMatchedSection ht with
      | some key =>
        if h.content ≠ [] then dUpsert acc key (String.intercalate "\n" h.content)
        else acc
      | none => acc) []

/-- HTML stage of `structure_description` (runner lines 382-426): only runs on
a truthy `description_html` with at least one potential header, and only
replaces the empty dictionary when it produced something. -/
def htmlStage (env : PyEnv) (description_html : String) : List (String × String) :=
  if description_html ≠ "" then
    let hdrs := env.htmlHeaders description_html
    if hdrs ≠ [] then htmlSectionContent hdrs else []
  else []

/-- State of the line scan of the text stage. -/
structure TextScan where
  cur : Option String
  buf : List String
  acc : List (String × String)

/-- Header match for a text line (runner lines 444-450): the loop breaks at
the first key with a matching keyword, and only when the line is short. -/
def lineMatchedSection (line : String) : Option String :=
  sections_keywords.findSome? (fun p =>
    if p.2.any (fun kw => pyContains kw (pyLower line)) && line.length < 50 then some p.1
    else none)

/-- One line of the text stage (runner lines 436-462). -/
def textStep (st : TextScan) (rawLine : String) : TextScan :=
  let line := pyStrip rawLine
  if line = "" then st
  else
    match lineMatchedSection line with
    | some key =>
      let acc :=
        match st.cur with
        | some cur =>
          if st.buf ≠ [] then dUpsert st.acc cur (String.intercalate "\n" st.buf)
          else st.acc
        | none => st.acc
      { cur := some key, buf := [], acc := acc }
    | none =>
      match st.cur with
      | some _ => { st with buf := st.buf ++ [line] }
      | none => st

/-- Text stage of `structure_description` (runner lines 430-469). -/
def textSectionContent (description_text : String) : List (String × String) :=
  let fin := (pySplitLines description_text).foldl textStep
    { cur := none, buf := [], acc := [] }
  match fin.cur with
  | some cur =>
    if fin.buf ≠ [] then dUpsert fin.acc cur (String.intercalate "\n" fin.buf)
    else fin.acc
  | none => fin.acc

/-- Match length at the head of `l` of the bullet delimiter regex of runner
line 474 (alternatives: newline + whitespace + one of the bullet characters,
or newline + whitespace + digits + dot; the alternatives have disjoint
deciding characters, so source order is immaterial here). -/
def bulletDelimAt (l : List Char) : Option Nat :=
  match l with
  | '\n' :: rest =>
    let ws := rest.takeWhile isPyWs
    let rest2 := rest.drop ws.length
    match rest2 with
    | '•' :: _ => some (1 + ws.length + 1)
    | '-' :: _ => some (1 + ws.length + 1)
    | '*' :: _ => some (1 + ws.length + 1)
    | c :: _ =>
      if c.isDigit then
        let ds := rest2.takeWhile Char.isDigit
        match rest2.drop ds.length with
        | '.' :: _ => some (1 + ws.length + ds.length + 1)
        | _ => none
      else none
    | [] => none
  | _ => none

/-- `re.split` without capturing: pieces of the text between non-overlapping
leftmost matches of `delimAt`.  Fuel-based for kernel reducibility; the fuel,
initialized to the text length, dominates the step count. -/
def splitScan (delimAt : List Char → Option Nat) :
    Nat → List Char → List Char → List (List Char)
  | _, acc, [] => [acc.reverse]
  | 0, acc, c :: cs => [acc.reverse ++ c :: cs]
  | fuel + 1, acc, c :: cs =>
    match delimAt (c :: cs) with
    | some k => acc.reverse :: splitScan delimAt fuel [] (cs.drop (k - 1))
    | none => splitScan delimAt fuel (c :: acc) cs

/-- The bullet split of runner line 474. -/
def bulletSplit (s : String) : List String :=
  (splitScan bulletDelimAt s.data.length [] s.data).map String.mk

/-- Requirement keywords for classifying bullet lists (runner lines 491-494). -/
def requirement_keywords : List String :=
  ["experience", "skill", "proficiency", "knowledge", "degree", "qualification",
   "background", "ability", "familiar", "understanding", "education",
   "proficient", "competent", "expertise", "fluent", "capable", "able to",
   "bachelor", "master", "phd", "certification", "qualified"]

/-- Responsibility keywords for classifying bullet lists (runner lines 496-499). -/
def responsibility_keywords : List String :=
  ["responsible", "duty", "ensure", "manage", "develop", "create",
   "implement", "deliver", "coordinate", "lead", "organize", "assist",
   "maintain", "support", "prepare", "provide", "handle", "work with",
   "collaborate", "participate", "communicate", "report", "conduct"]

/-- Bullet-point stage of `structure_description` (runner lines 472-508),
entered when fewer than two sections were found so far. -/
def bulletStage (description_text : String)
    (structured : List (String × String)) : List (String × String) :=
  let bullet_sections := bulletSplit description_text
  if 3 < bullet_sections.length then
    let structured :=
      if 100 < (bullet_sections.headD "").length then
        dUpsert structured "about" (pyStrip (bullet_sections.headD ""))
      else structured
    let bullets := (bullet_sections.drop 1).filterMap (fun s =>
      if pyStrip s ≠ "" then some ("• " ++ pyStrip s) else none)
    if bullets ≠ [] then
      let bullets_text := pyLower (String.intercalate " " bullets)
      let req_count := (requirement_keywords.filter (fun k => pyContains k bullets_text)).length
      let resp_count := (responsibility_keywords.filter (fun k => pyContains k bullets_text)).length
      if resp_count < req_count then
        dUpsert structured "requirements" (String.intercalate "\n" bullets)
      else dUpsert structured "responsibilities" (String.intercalate "\n" bullets)
    else structured
  else structured

/-- Match length at the head of `l` of the capturing delimiter regex of runner
line 520, alternatives in source order: newline + whitespace + digits + dot,
newline + whitespace + a bullet character, or two or more newlines. -/
def capDelimAt (l : List Char) : Option Nat :=
  match l with
  | '\n' :: rest =>
    (let ws := rest.takeWhile isPyWs
     let rest2 := rest.drop ws.length
     let ds := rest2.takeWhile Char.isDigit
     if ds ≠ [] then
       match rest2.drop ds.length with
       | '.' :: _ => some (1 + ws.length + ds.length + 1)
       | _ => none
     else none) <|>
    (let ws := rest.takeWhile isPyWs
     match rest.drop ws.length with
     | '•' :: _ => some (1 + ws.length + 1)
     | '-' :: _ => some (1 + ws.length + 1)
     | '*' :: _ => some (1 + ws.length + 1)
     | _ => none) <|>
    (let ns := ('\n' :: rest).takeWhile (fun c => c = '\n')
     if 2 ≤ ns.length then some ns.length else none)
  | _ => none

/-- `re.split` with a capturing group: pieces interleaved with the matched
delimiters, as Python returns them.  Fuel-based for kernel reducibility. -/
def splitKeepScan (delimAt : List Char → Option Nat) :
    Nat → List Char → List Char → List (List Char)
  | _, acc, [] => [acc.reverse]
  | 0, acc, c :: cs => [acc.reverse ++ c :: cs]
  | fuel + 1, acc, c :: cs =>
    match delimAt (c :: cs) with
    | some k =>
      acc.reverse :: (c :: cs).take k :: splitKeepScan delimAt fuel [] (cs.drop (k - 1))
    | none => splitKeepScan delimAt fuel (c :: acc) cs

/-- Boolean of `re.match(r'^\s*(DELIM)\s*$', section)` (runner line 525):
some whitespace prefix, one delimiter alternative, then whitespace to the end.
Exhaustive over split points, which subsumes the engine's backtracking. -/
def delimFullMatch (l : List Char) : Bool :=
  (List.range (l.length + 1)).any (fun i =>
    (l.take i).all isPyWs &&
      (match capDelimAt (l.drop i) with
       | some k => ((l.drop i).drop k).all isPyWs
       | none => false))

/-- Final-fallback stage of `structure_description` (runner lines 510-551),
entered only when the dictionary is still empty and the text truthy; it always
records at least a `job_overview`. -/
def finalStage (description_text : String) : List (String × String) :=
  if description_text.length < 500 then [("job_overview", pyStrip description_text)]
  else
    let sections_split :=
      (splitKeepScan capDelimAt description_text.data.length [] description_text.data).map String.mk
    let clean_sections := sections_split.filterMap (fun sec =>
      if sec ≠ "" && !(delimFullMatch sec.data) then some (pyStrip sec) else none)
    if 1 < clean_sections.length then
      let structured := dUpsert [] "job_overview" (clean_sections.headD "")
      (clean_sections.drop 1).foldl (fun st sec =>
        let sl := pyLower sec
        if (pyWords sl).length < 10 then st
        else if ["experience", "skill", "require", "qualification", "proficiency"].any
            (fun w => pyContains w sl) then dUpsert st "requirements" sec
        else if ["responsible", "duty", "task", "role", "work on"].any
            (fun w => pyContains w sl) then dUpsert st "responsibilities" sec
        else if ["benefit", "offer", "salary", "compensation", "package"].any
            (fun w => pyContains w sl) then dUpsert st "benefits" sec
        else if ["company", "about us", "who we are"].any
            (fun w => pyContains w sl) then dUpsert st "about_company" sec
        else st) structured
    else [("job_overview", pyStrip description_text)]

/-- Sections after the HTML and text stages: the text parse runs only when
the HTML stage produced nothing (runner line 429). -/
def stage2 (env : PyEnv) (description_text description_html : String) :
    List (String × String) :=
  if htmlStage env description_html = [] then textSectionContent description_text
  else htmlStage env description_html

/-- Sections after the bullet stage, which runs only when fewer than two
sections were found (runner line 472). -/
def stage3 (env : PyEnv) (description_text description_html : String) :
    List (String × String) :=
  if (stage2 env description_text description_html).length < 2 then
    bulletStage description_text (stage2 env description_text description_html)
  else stage2 env description_text description_html

/-- `structure_description` (runner lines 356-560): HTML stage, text stage,
bullet augmentation, final fallback. -/
def structure_description (env : PyEnv)
    (description_text description_html : String) : List (String × String) :=
  if stage3 env description_text description_html = [] ∧ description_text ≠ "" then
    finalStage description_text
  else stage3 env description_text description_html

/-- The `except` handler of `structure_description` (runner lines 555-560). -/
def structure_description_onError (description_text : String) :
    List (String × String) :=
  if description_text ≠ "" then [("job_overview", pyStrip description_text)] else []

/-! ## `extract_job_type` (runner lines 562-642) -/

/-- Python truthiness of an optional string. -/
def optTruthy : Option String → Bool
  | none => false
  | some s => s ≠ ""

/-- Standard job types and their pattern lists (runner lines 577-605), in
source (insertion) order. -/
def job_type_patterns : List (String × List String) :=
  [("Full-time",
    ["full[- ]?time", "full time", "permanent", "regular", "ft\\b", "f/t\\b",
     "\\bft\\b", "40\\s?hours?", "permanent", "regular", "permanent full[- ]?time"]),
   ("Part-time",
    ["part[- ]?time", "part time", "\\bpt\\b", "p/t\\b", "\\bpt\\b",
     "(\\d\x7b1,2\x7d)-(\\d\x7b1,2\x7d)\\s?hours?", "part-time permanent"]),
   ("Contract",
    ["contract", "fixed[- ]?term", "temporary", "temp\\b", "interim",
     "non[- ]?permanent", "\\bltd\\b", "limited term"]),
   ("Freelance",
    ["freelance", "self[- ]?employed", "independent contractor", "1099", "gig"]),
   ("Internship",
    ["internship", "intern\\b", "trainee", "placement", "student", "co-op",
     "apprentice"]),
   ("Temporary", ["temp\\b", "temporary", "seasonal"]),
   ("Volunteer", ["volunteer", "unpaid", "pro bono"])]

/-- The seven standardized job types. -/
def seven_job_types : List String := job_type_patterns.map Prod.fst

/-- Nested pattern loop of `extract_job_type`: the first standard type one of
whose patterns matches `t` (the function returns inside the loops). -/
def matchJobType (env : PyEnv) (t : String) : Option String :=
  job_type_patterns.findSome? (fun p =>
    if p.2.any (fun pat => (env.reSearch pat t).isSome) then some p.1 else none)

/-- Context pattern of runner lines 623-626. -/
def job_type_ctx_pattern : String :=
  "(employment|job|position|work)\\s+type\\s*:?\\s*([^.,:;]+)"

/-- Description stage of `extract_job_type` (runner lines 618-639): the
context matches are consulted first, then the whole lowered description, then
the "Full-time" default of line 642. -/
def jobTypeFromDescription (env : PyEnv) (d : String) : String :=
  match (env.reFindall2 job_type_ctx_pattern d).findSome?
      (fun pr => matchJobType env pr.2) with
  | some std => std
  | none => (matchJobType env d).getD "Full-time"

/-- `extract_job_type` (runner lines 562-642): empty for two falsy inputs,
else the job-type text match, else the description stage, else the
"Full-time" default. -/
def extract_job_type (env : PyEnv)
    (job_type_text description_text : Option String) : String :=
  if !optTruthy job_type_text && !optTruthy description_text then ""
  else
    match (if optTruthy job_type_text = true then
        matchJobType env (pyLower (job_type_text.getD "")) else none) with
    | some std => std
    | none =>
      if optTruthy description_text = true then
        jobTypeFromDescription env (pyLower (description_text.getD ""))
      else "Full-time"

/-! ## `extract_skills` and `extract_experience` (runner lines 644-716) -/

/-- Characters escaped by Python 3.7+ `re.escape` (the regex metacharacters
and whitespace). -/
def reEscapeSpecials : List Char :=
  ['(', ')', '[', ']', '\x7b', '\x7d', '?', '*', '+', '-', '|', '^', '$',
   '\\', '.', '&', '~', '#', ' ', '\t', '\n', '\r', '\x0b', '\x0c']

/-- Python `re.escape`. -/
def reEscape (s : String) : String :=
  ⟨s.data.foldr (fun c acc =>
    if reEscapeSpecials.contains c then '\\' :: c :: acc else c :: acc) []⟩

/-- Python `str.title()`: uppercase each letter that follows a non-letter,
lowercase the other letters. -/
def pyTitleAux (prevAlpha : Bool) : List Char → List Char
  | [] => []
  | c :: cs =>
    if c.isAlpha then
      (if prevAlpha then c.toLower else c.toUpper) :: pyTitleAux true cs
    else c :: pyTitleAux false cs

/-- Python `str.title()`. -/
def pyTitle (s : String) : String := ⟨pyTitleAux false s.data⟩

/-- Common tech skills (runner lines 657-666), in source order. -/
def common_skills : List String :=
  ["python", "javascript", "react", "angular", "vue", "node", "django",
   "flask", "java", "c++", "c#", "ruby", "php", "sql", "postgresql",
   "mysql", "mongodb", "aws", "azure", "gcp", "docker", "kubernetes",
   "git", "github", "agile", "scrum", "jira", "html", "css", "sass",
   "typescript", "redux", "express", "spring", "hibernate", "jquery",
   "graphql", "rest api", "microservices", "devops", "ci/cd",
   "tensorflow", "pytorch", "machine learning", "data science",
   "excel", "powerpoint", "word", "project management", "team leadership"]

/-- `extract_skills` (runner lines 644-680): substring checks over the lowered
description, multi-word skills confirmed by a word-boundary regex, names
title-cased; `None` when nothing was found. -/
def extract_skills (env : PyEnv) (description : String) : Option (List String) :=
  let dl := pyLower description
  let skills := common_skills.foldl (fun acc skill =>
    if pyContains skill dl then
      if pyContains " " skill then
        if (env.reSearch ("\\b" ++ reEscape skill ++ "\\b") dl).isSome then
          acc ++ [pyTitle skill]
        else acc
      else acc ++ [pyTitle skill]
    else acc) []
  if skills ≠ [] then some skills else none

/-- Experience patterns (runner lines 693-698), in source order. -/
def experience_patterns : List String :=
  ["(\\d+(?:\\+|\\s*\\+)?(?:\\s*\\-\\s*\\d+)?)\\s*(?:years?|yrs?)(?:\\s*of)?(?:\\s*experience)?",
   "experience:?\\s*(\\d+(?:\\+|\\s*\\+)?(?:\\s*\\-\\s*\\d+)?)\\s*(?:years?|yrs?)",
   "minimum(?:\\s*of)?\\s*(\\d+(?:\\+|\\s*\\+)?(?:\\s*\\-\\s*\\d+)?)\\s*(?:years?|yrs?)(?:\\s*experience)?",
   "at\\s*least\\s*(\\d+(?:\\+|\\s*\\+)?(?:\\s*\\-\\s*\\d+)?)\\s*(?:years?|yrs?)(?:\\s*experience)?"]

/-- `extract_experience` (runner lines 682-716): the first pattern with a
match decides; the `context` computed at lines 706-708 is never used and is
omitted. -/
def extract_experience (env : PyEnv) (description : String) : Option String :=
  let dl := pyLower description
  experience_patterns.findSome? (fun pat =>
    match env.reSearchG1 pat dl with
    | some g =>
      let e := pyStrip g
      if pyContains "-" e || pyContains "to" e then some (e ++ " years of experience")
      else some (e ++ "+ years of experience")
    | none => none)

/-! ## `post_process_job_data` (runner lines 151-258) -/

/-- Guard of the company block: missing, empty or placeholder company. -/
def companyMissing (c : Option String) : Bool :=
  c = none || c = some "" || c = some "Unknown Company"

/-- Guard of the location block. -/
def locationMissing (c : Option String) : Bool :=
  c = none || c = some "" || c = some "Unknown Location"

/-- Company patterns (runner lines 171-175), in source order. -/
def company_patterns : List String :=
  ["(?:at|for|with|by)\\s+([A-Z][A-Za-z0-9\\s&]+?(?:Ltd|Limited|Inc|LLC|GmbH|AG|plc|Co\\.|Company)?)",
   "([A-Z][A-Za-z0-9\\s&]+?(?:Ltd|Limited|Inc|LLC|GmbH|AG|plc|Co\\.|Company)) is (?:seeking|looking|hiring)",
   "About\\s+([A-Z][A-Za-z0-9\\s&]+?(?:Ltd|Limited|Inc|LLC|GmbH|AG|plc|Co\\.|Company))"]

/-- Words disqualifying a company candidate (runner line 182). -/
def company_bad_words : List String :=
  ["apply", "role", "position", "job", "we are", "click", "ideal"]

/-- Company-from-description loop (runner lines 177-184): a pattern whose
group 1, stripped, passes the length and keyword checks wins; a match failing
the checks does not stop the loop. -/
def companyFromDesc (env : PyEnv) (desc : String) : Option String :=
  company_patterns.findSome? (fun pat =>
    match env.reSearchG1 pat desc with
    | some g =>
      let pc := pyStrip g
      if 2 < pc.length && pc.length < 40
          && !(company_bad_words.any (fun w => pyContains w (pyLower pc))) then some pc
      else none
    | none => none)

/-- Location patterns (runner lines 201-205), in source order. -/
def location_patterns : List String :=
  ["Location:\\s*([A-Za-z\\s,]+)",
   "(?:in|at|near|from)\\s+([A-Z][a-z]+(?:\\s+[A-Z][a-z]+)?)",
   "([A-Z][a-z]+(?:\\s+[A-Z][a-z]+)?)\\s+(?:office|area|region)"]

/-- Words disqualifying a location candidate (runner line 212). -/
def location_bad_words : List String :=
  ["salary", "about", "job", "position", "company"]

/-- Location-from-description loop (runner lines 207-214). -/
def locationFromDesc (env : PyEnv) (desc : String) : Option String :=
  location_patterns.findSome? (fun pat =>
    match env.reSearchG1 pat desc with
    | some g =>
      let pl := pyStrip g
      if 2 < pl.length && pl.length < 30
          && !(location_bad_words.any (fun w => pyContains w (pyLower pl))) then some pl
      else none
    | none => none)

/-- `sanitize_html` (runner lines 260-302): the empty-input guard is in the
sources; the DOM rewriting is BeautifulSoup behaviour, abstracted. -/
def sanitize_html (env : PyEnv) (html_content : String) : String :=
  if html_content = "" then "" else env.sanitizeHtmlBody html_content

/-- `format_html_to_text` (runner lines 304-354): likewise. -/
def format_html_to_text (env : PyEnv) (html_content : String) : String :=
  if html_content = "" then "" else env.formatHtmlBody html_content

/-- Company block of `post_process_job_data` (runner lines 163-188). -/
def processCompany (env : PyEnv) (job : Job) : Job :=
  if companyMissing job.company then
    let job :=
      match job.description with
      | some desc =>
        if desc ≠ "" then
          match companyFromDesc env desc with
          | some c => { job with company := some c }
          | none => job
        else job
      | none => job
    if companyMissing job.company then { job with company := some "Hiring Company" }
    else job
  else job

/-- Location block (runner lines 190-214): the UK default may be overwritten
by a description-derived location, as in the source. -/
def processLocation (env : PyEnv) (job : Job) : Job :=
  if locationMissing job.location then
    let job :=
      if job.is_uk = some true then { job with location := some "United Kingdom - Remote" }
      else job
    match job.description with
    | some desc =>
      if desc ≠ "" then
        match locationFromDesc env desc with
        | some l => { job with location := some l }
        | none => job
      else job
    | none => job
  else job

/-- Description-HTML block (runner lines 216-223). -/
def processHtml (env : PyEnv) (job : Job) : Job :=
  match job.description_html with
  | some dh =>
    let clean := sanitize_html env dh
    { job with description_html := some clean,
               formatted_description := some (format_html_to_text env clean) }
  | none => job

/-- Structured-description block (runner lines 225-231). -/
def processStructured (env : PyEnv) (job : Job) : Job :=
  match job.description with
  | some d =>
    let sd := structure_description env d (job.description_html.getD "")
    if sd ≠ [] then { job with structured_description := some sd } else job
  | none => job

/-- Job-type block (runner lines 233-243). -/
def processJobType (env : PyEnv) (job : Job) : Job :=
  match job.job_type with
  | some jt =>
    let std := extract_job_type env (some jt) (some (job.description.getD ""))
    { job with standardized_job_type := some std }
  | none =>
    let s := extract_job_type env none (some (job.description.getD ""))
    if s ≠ "" then { job with standardized_job_type := some s, job_type := some s }
    else job

/-- Skills block (runner lines 245-249). -/
def processSkills (env : PyEnv) (job : Job) : Job :=
  match job.description with
  | some d =>
    match extract_skills env d with
    | some sk => { job with skills := some sk }
    | none => job
  | none => job

/-- Experience block (runner lines 251-255). -/
def processExperience (env : PyEnv) (job : Job) : Job :=
  match job.description with
  | some d =>
    match extract_experience env d with
    | some e => { job with experience := some e }
    | none => job
  | none => job

/-- Per-record mutation of `post_process_job_data` (runner lines 163-255):
the seven blocks, applied in source order. -/
def processJob (env : PyEnv) (job : Job) : Job :=
  processExperience env (processSkills env (processJobType env
    (processStructured env (processHtml env (processLocation env
      (processCompany env job))))))

/-- `post_process_job_data` (runner lines 151-258): mutate each record of the
list in place and return the list itself. -/
def post_process_job_data (env : PyEnv) (jobs : List Job) : List Job :=
  jobs.map (processJob env)

/-! ## `export_to_csv` (runner lines 34-57) -/

/-- CSV header fields (runner lines 40-46), in order. -/
def csv_headers : List String :=
  ["title", "company", "location", "url", "salary", "description",
   "date_posted", "date_posted_iso", "is_remote", "is_uk", "is_europe",
   "region", "country_code", "source", "job_id", "source_id", "id",
   "job_type", "standardized_job_type", "experience", "skills",
   "structured_description"]

/-- One `csv.DictWriter` row with `extrasaction='ignore'` and the default
`restval=''`: the record's stringified values at exactly the header fields,
extra keys ignored, missing keys written as the empty string. -/
def csvRow (record : String → Option String) : List String :=
  csv_headers.map (fun h => (record h).getD "")

/-- Serialization logic of `export_to_csv`: the header row followed by one
row per record, in order.  File I/O is outside the model. -/
def export_to_csv (jobs : List (String → Option String)) : List (List String) :=
  csv_headers :: jobs.map csvRow

/-! ## Concrete fixtures used to instantiate the theorems -/

/-- Erase a selector exception to a miss; `extract_salary` treats the two
identically, the per-field loops of the card loop do not. -/
def selHit (r : Except Unit (Option Elem)) : Option Elem :=
  match r with
  | .ok o => o
  | .error _ => none

/-- Oracle environment in which no opaque regex matches, no headers are found
and the HTML bodies are the identity. -/
def trivEnv : PyEnv :=
  { reSearch := fun _ _ => none, reSearchG1 := fun _ _ => none,
    reFindall2 := fun _ _ => [], htmlHeaders := fun _ => [],
    sanitizeHtmlBody := fun s => s, formatHtmlBody := fun s => s }

/-- A concrete scraper configuration: no configured base URLs, a tagging
digest stand-in, a fixed clock. -/
def trivCfg : ScraperCfg :=
  { base_urls := fun _ => none, md5hex := fun s => "md5:" ++ s,
    now := "2026-10-12 00:00:00" }

/-- Card whose `.salary` element holds a salary range. -/
def salaryCard : JobCard :=
  { selectOne := fun sel =>
      if sel = ".salary" then
        .ok (some { text := "£30,000 - £40,000 per year", href := none })
      else .ok none,
    fullText := "" }

/-- Card with a valid title and URL whose company lookup raises. -/
def companyFailCard : JobCard :=
  { selectOne := fun sel =>
      if sel = ".company_name" then .error ()
      else if sel = "h2" then .ok (some { text := "Software Developer", href := none })
      else if sel = "a[href*=\"job\"]" then
        .ok (some { text := "Software Developer", href := some "https://example.com/job/1" })
      else .ok none,
    fullText := "" }

/-- The same card with a benign company lookup. -/
def companyOkCard : JobCard :=
  { selectOne := fun sel =>
      if sel = ".company_name" then .ok (some { text := "Acme Ltd", href := none })
      else if sel = "h2" then .ok (some { text := "Software Developer", href := none })
      else if sel = "a[href*=\"job\"]" then
        .ok (some { text := "Software Developer", href := some "https://example.com/job/1" })
      else .ok none,
    fullText := "" }

/-- Card whose every lookup raises. -/
def errorCard : JobCard :=
  { selectOne := fun _ => .error (), fullText := "" }

/-- The record extracted from `companyOkCard` under `trivCfg` and `trivEnv`. -/
def okJob : Job :=
  { id := "md5:https://example.com/job/1", title := "Software Developer",
    url := "https://example.com/job/1", source := "ZipRecruiter", country := "uk",
    timestamp := "2026-10-12 00:00:00", company := some "Acme Ltd" }

/-- A populated record whose description mentions a salary but whose salary
field was never parsed. -/
def wJob : Job :=
  { id := "id0", title := "Dev", url := "https://example.com/job/1",
    source := "ZipRecruiter", country := "uk", timestamp := "t",
    company := some "Acme Ltd", location := some "London",
    description := some "Salary: £50,000 per annum" }

/-- A CSV record with only in-header keys. -/
def csvRec1 : String → Option String :=
  fun k => if k = "title" then some "Dev" else none

/-- The same CSV record with one extra, out-of-header key. -/
def csvRec2 : String → Option String :=
  fun k => if k = "title" then some "Dev"
    else if k = "zzz" then some "extra" else none

/-- Decidable equality of card-processing outcomes, for evaluating the
concrete fixtures. -/
instance {ε α : Type} [DecidableEq ε] [DecidableEq α] : DecidableEq (Except ε α) :=
  fun a b =>
    match a, b with
    | .ok x, .ok y =>
      if h : x = y then isTrue (by rw [h])
      else isFalse (by intro hh; cases hh; exact h rfl)
    | .error x, .error y =>
      if h : x = y then isTrue (by rw [h])
      else isFalse (by intro hh; cases hh; exact h rfl)
    | .ok _, .error _ => isFalse (by intro hh; cases hh)
    | .error _, .ok _ => isFalse (by intro hh; cases hh)

/-! ## Helper lemmas -/

/-- A selector-stage salary hit is non-empty: the loop only keeps texts whose
strip is non-empty. -/
theorem selectorSalaryText_ne_empty {card : JobCard} {t : String}
    (h : selectorSalaryText card = some t) : t ≠ "" := by
  obtain ⟨sel, -, hsel⟩ := List.exists_of_findSome?_eq_some h
  revert hsel
  cases card.selectOne sel with
  | error e => intro hsel; cases hsel
  | ok o =>
    cases o with
    | none => intro hsel; cases hsel
    | some el =>
      intro hsel
      have hsel' : (if pyStrip el.text ≠ "" then some (pyStrip el.text) else none)
          = some t := hsel
      by_cases hne : pyStrip el.text = ""
      · rw [if_neg (not_not_intro hne)] at hsel'; cases hsel'
      · rw [if_pos hne] at hsel'; cases hsel'; exact hne

/-- A regex-stage salary hit comes from the first matching pattern, so under
the digit-bearing hypothesis it is non-empty after stripping. -/
theorem regexSalaryText_ne_empty {env : PyEnv} {card : JobCard} {t : String}
    (hm : ∀ p ∈ salary_patterns, ∀ m, env.reSearch p card.fullText = some m →
      pyStrip m ≠ "")
    (h : regexSalaryText env card = some t) : t ≠ "" := by
  unfold regexSalaryText at h
  cases hf : salary_patterns.findSome? (fun pat => env.reSearch pat card.fullText) with
  | none => rw [hf] at h; cases h
  | some m =>
    rw [hf] at h
    obtain ⟨p, hp, hps⟩ := List.exists_of_findSome?_eq_some hf
    cases h
    exact hm p hp m hps

/-- Inversion of `extract_salary`: a produced record is the processing of the
text found by the cascade. -/
theorem extract_salary_eq_some {env : PyEnv} {card : JobCard} {d : SalaryData}
    (h : extract_salary env card = some d) :
    ∃ raw, (selectorSalaryText card = some raw ∨
      (selectorSalaryText card = none ∧ regexSalaryText env card = some raw)) ∧
      d = processSalaryText raw := by
  revert h; unfold extract_salary
  cases hs : selectorSalaryText card with
  | some t =>
    intro h
    by_cases he : t = "" <;> simp [he] at h
    exact ⟨t, Or.inl rfl, h.symm⟩
  | none =>
    cases hr : regexSalaryText env card with
    | none => intro h; simp at h
    | some t =>
      intro h
      by_cases he : t = "" <;> simp [he] at h
      exact ⟨t, Or.inr ⟨rfl, rfl⟩, h.symm⟩

/-- A left fold by `min` is bounded by its initial value. -/
theorem listMinQ_le_init : ∀ (xs : List ℚ) (x : ℚ), listMinQ x xs ≤ x
  | [], _ => le_refl _
  | y :: ys, x => le_trans (listMinQ_le_init ys (min x y)) (min_le_left x y)

/-- A left fold by `max` is bounded below by its initial value. -/
theorem init_le_listMaxQ : ∀ (xs : List ℚ) (x : ℚ), x ≤ listMaxQ x xs
  | [], _ => le_refl _
  | y :: ys, x => le_trans (le_max_left x y) (init_le_listMaxQ ys (max x y))

/-- Unfolding equation of `processSalaryText`. -/
theorem processSalaryText_eq (raw : String) :
    processSalaryText raw =
      match (findNumbers (cleanWs raw)).map parseNumQ with
      | [] =>
        { text := cleanWs raw, currency := salaryCurrency (cleanWs raw),
          min := none, max := none, period := salaryPeriod (cleanWs raw),
          is_range := false }
      | [x] =>
        { text := cleanWs raw, currency := salaryCurrency (cleanWs raw),
          min := some x, max := none, period := salaryPeriod (cleanWs raw),
          is_range := false }
      | x :: y :: rest =>
        { text := cleanWs raw, currency := salaryCurrency (cleanWs raw),
          min := some (listMinQ x (y :: rest)), max := some (listMaxQ x (y :: rest)),
          period := salaryPeriod (cleanWs raw), is_range := true } := rfl

/-- Field description of `processSalaryText` as a function of the parsed
numbers of the cleaned text. -/
theorem processSalaryText_spec (raw : String) :
    (processSalaryText raw).text = cleanWs raw ∧
    ((findNumbers (cleanWs raw)).map parseNumQ = [] →
      (processSalaryText raw).is_range = false ∧
      (processSalaryText raw).min = none ∧ (processSalaryText raw).max = none) ∧
    (∀ x, (findNumbers (cleanWs raw)).map parseNumQ = [x] →
      (processSalaryText raw).is_range = false ∧
      (processSalaryText raw).min = some x ∧ (processSalaryText raw).max = none) ∧
    (∀ x y rest, (findNumbers (cleanWs raw)).map parseNumQ = x :: y :: rest →
      (processSalaryText raw).is_range = true ∧
      (processSalaryText raw).min = some (listMinQ x (y :: rest)) ∧
      (processSalaryText raw).max = some (listMaxQ x (y :: rest))) := by
  cases hn : (findNumbers (cleanWs raw)).map parseNumQ with
  | nil =>
    refine ⟨?_, fun _ => ?_, fun x hx => ?_, fun x y r hx => ?_⟩
    · simp [processSalaryText_eq, hn]
    · simp [processSalaryText_eq, hn]
    · cases hx
    · cases hx
  | cons a as =>
    cases as with
    | nil =>
      refine ⟨?_, fun hx => ?_, fun x hx => ?_, fun x y r hx => ?_⟩
      · simp [processSalaryText_eq, hn]
      · cases hx
      · cases hx; simp [processSalaryText_eq, hn]
      · cases hx
    | cons b bs =>
      refine ⟨?_, fun hx => ?_, fun x hx => ?_, fun x y r hx => ?_⟩
      · simp [processSalaryText_eq, hn]
      · cases hx
      · cases hx
      · cases hx; simp [processSalaryText_eq, hn]

/-! ## C1 -/

/-- C1: `extract_salary` is a priority-ordered cascade with fallback: a
selector-stage hit (the first listed selector with non-empty stripped text)
decides the result and makes it independent of the regex oracle; the regex
stage (the first listed pattern with a match over the card's full text) is
consulted only when the selector stage found nothing; and the result is
`None` exactly when neither stage yields salary text.  The hypothesis records
that the five salary patterns can only match digit-bearing text (their
matches strip to non-empty strings). -/
theorem C1_extract_salary_cascade (env : PyEnv) (card : JobCard)
    (hm : ∀ p ∈ salary_patterns, ∀ m, env.reSearch p card.fullText = some m →
      pyStrip m ≠ "") :
    (∀ t, selectorSalaryText card = some t →
        extract_salary env card = some (processSalaryText t)) ∧
    (∀ env' : PyEnv, selectorSalaryText card ≠ none →
        extract_salary env card = extract_salary env' card) ∧
    (selectorSalaryText card = none →
        ∀ t, regexSalaryText env card = some t →
          extract_salary env card = some (processSalaryText t)) ∧
    (extract_salary env card = none ↔
        selectorSalaryText card = none ∧ regexSalaryText env card = none) := by
  refine ⟨?_, ?_, ?_, ?_, ?_⟩
  · intro t ht
    have hne := selectorSalaryText_ne_empty ht
    simp [extract_salary, ht, hne]
  · intro env' hne
    cases ht : selectorSalaryText card with
    | none => exact absurd ht hne
    | some t => simp [extract_salary, ht]
  · intro hsel t ht
    have hne : t ≠ "" := regexSalaryText_ne_empty hm ht
    simp [extract_salary, hsel, ht, hne]
  · intro h
    cases ht : selectorSalaryText card with
    | some t =>
      have hne := selectorSalaryText_ne_empty ht
      simp [extract_salary, ht, hne] at h
    | none =>
      cases hr : regexSalaryText env card with
      | some t =>
        have hne := regexSalaryText_ne_empty hm hr
        simp [extract_salary, ht, hr, hne] at h
      | none => exact ⟨rfl, rfl⟩
  · rintro ⟨h1, h2⟩
    simp [extract_salary, h1, h2]

/-- Witness for C1 at a concrete card and the trivial oracle. -/
theorem C1_witness :
    extract_salary trivEnv salaryCard =
      some (processSalaryText "£30,000 - £40,000 per year") := by
  have h := C1_extract_salary_cascade trivEnv salaryCard
    (by intro p hp m hmm; exact absurd hmm (by simp [trivEnv]))
  exact h.1 "£30,000 - £40,000 per year" (by decide)

/-! ## C9 -/

/-- C9: when `extract_salary` returns a record, its `text` field is the
cleaned found salary text; two or more parsed numbers give `is_range = true`
with `min` the smallest and `max` the largest parsed number (so min ≤ max);
exactly one parsed number gives `is_range = false`, that number as `min`, and
no `max`. -/
theorem C9_salary_range (env : PyEnv) (card : JobCard) (d : SalaryData)
    (h : extract_salary env card = some d) :
    (∃ raw, (selectorSalaryText card = some raw ∨ regexSalaryText env card = some raw) ∧
       d = processSalaryText raw ∧ d.text = cleanWs raw) ∧
    (∀ x y rest, (findNumbers d.text).map parseNumQ = x :: y :: rest →
       d.is_range = true ∧ d.min = some (listMinQ x (y :: rest)) ∧
       d.max = some (listMaxQ x (y :: rest)) ∧
       ∃ a b, d.min = some a ∧ d.max = some b ∧ a ≤ b) ∧
    (∀ x, (findNumbers d.text).map parseNumQ = [x] →
       d.is_range = false ∧ d.min = some x ∧ d.max = none) := by
  obtain ⟨raw, hor, hd⟩ := extract_salary_eq_some h
  have hspec := processSalaryText_spec raw
  have htext : d.text = cleanWs raw := by rw [hd]; exact hspec.1
  refine ⟨⟨raw, ?_, hd, htext⟩, ?_, ?_⟩
  · rcases hor with h1 | ⟨-, h2⟩
    · exact Or.inl h1
    · exact Or.inr h2
  · intro x y rest hx
    rw [htext] at hx
    obtain ⟨h1, h2, h3⟩ := hspec.2.2.2 x y rest hx
    rw [hd]
    refine ⟨h1, h2, h3, listMinQ x (y :: rest), listMaxQ x (y :: rest), h2, h3, ?_⟩
    exact le_trans (listMinQ_le_init (y :: rest) x) (init_le_listMaxQ (y :: rest) x)
  · intro x hx
    rw [htext] at hx
    rw [hd]
    exact hspec.2.2.1 x hx

/-- Witness for C9: the range card parses to min 30000, max 40000. -/
theorem C9_witness :
    (processSalaryText "£30,000 - £40,000 per year").is_range = true ∧
    (processSalaryText "£30,000 - £40,000 per year").min = some 30000 ∧
    (processSalaryText "£30,000 - £40,000 per year").max = some 40000 := by
  have h : extract_salary trivEnv salaryCard =
      some (processSalaryText "£30,000 - £40,000 per year") := by decide
  have hc := C9_salary_range trivEnv salaryCard _ h
  have h2 := hc.2.1 30000 40000 [] (by decide)
  refine ⟨h2.1, ?_, ?_⟩
  · rw [h2.2.1]; decide
  · rw [h2.2.2.1]; decide

/-! ## Helper lemmas for the card loop -/

/-- Bind of a success in the `Except` monad. -/
theorem ok_bind {α β : Type} (a : α) (f : α → Except Unit β) :
    (Except.ok a >>= f) = f a := rfl

/-- Bind of a failure in the `Except` monad. -/
theorem error_bind {α β : Type} (e : Unit) (f : α → Except Unit β) :
    ((Except.error e : Except Unit α) >>= f) = Except.error e := rfl

/-- A text hit of a per-field loop is non-empty. -/
theorem firstTextHit_ne_empty {card : JobCard} {t : String} :
    ∀ (sels : List String), firstTextHit card sels = .ok (some t) → t ≠ ""
  | [], h => by cases h
  | sel :: rest, h => by
    rw [firstTextHit] at h
    cases hc : card.selectOne sel with
    | error e =>
      rw [hc, error_bind] at h
      cases h
    | ok o =>
      rw [hc, ok_bind] at h
      cases o with
      | none => exact firstTextHit_ne_empty rest h
      | some el =>
        have h' : (if pyStrip el.text ≠ "" then
            (pure (some (pyStrip el.text)) : Except Unit (Option String))
          else firstTextHit card rest) = .ok (some t) := h
        by_cases hne : pyStrip el.text = ""
        · rw [if_neg (not_not_intro hne)] at h'
          exact firstTextHit_ne_empty rest h'
        · rw [if_pos hne] at h'
          cases h'
          exact hne

/-- `findSome?` only depends on the pointwise values of its function. -/
theorem findSome?_congr {α β : Type} {f g : α → Option β} :
    ∀ (l : List α), (∀ a ∈ l, f a = g a) → l.findSome? f = l.findSome? g
  | [], _ => rfl
  | a :: as, h => by
    rw [List.findSome?_cons, List.findSome?_cons, h a (List.mem_cons_self a as)]
    cases g a with
    | some b => rfl
    | none => exact findSome?_congr as (fun x hx => h x (List.mem_cons_of_mem a hx))

/-- The salary selector loop sees a lookup only through `selHit`: an exception
and a miss are indistinguishable to it. -/
theorem selectorSalaryText_congr {c c' : JobCard}
    (h : ∀ sel ∈ salary_selectors, selHit (c'.selectOne sel) = selHit (c.selectOne sel)) :
    selectorSalaryText c' = selectorSalaryText c := by
  unfold selectorSalaryText
  apply findSome?_congr
  intro sel hsel
  have e1 : ∀ (cc : JobCard), (match cc.selectOne sel with
      | .ok (some el) => if pyStrip el.text ≠ "" then some (pyStrip el.text) else none
      | _ => none) =
      (match selHit (cc.selectOne sel) with
       | some el => if pyStrip el.text ≠ "" then some (pyStrip el.text) else none
       | none => none) := by
    intro cc
    cases hcc : cc.selectOne sel with
    | error e => simp [selHit, hcc]
    | ok o => cases o <;> simp [selHit, hcc]
  rw [e1 c', e1 c, h sel hsel]

/-- `extract_salary` depends on the card only through erased selector lookups
and the full text. -/
theorem extract_salary_congr {env : PyEnv} {c c' : JobCard}
    (hf : c'.fullText = c.fullText)
    (h : ∀ sel ∈ salary_selectors, selHit (c'.selectOne sel) = selHit (c.selectOne sel)) :
    extract_salary env c' = extract_salary env c := by
  unfold extract_salary regexSalaryText
  rw [selectorSalaryText_congr h, hf]

/-- Prefixes survive appending on the right. -/
theorem pyStartsWith_append (a b p : String) (h : pyStartsWith a p = true) :
    pyStartsWith (a ++ b) p = true := by
  unfold pyStartsWith at h ⊢
  rw [String.data_append]
  rw [List.isPrefixOf_iff_prefix] at h ⊢
  exact h.trans (List.prefix_append _ _)

/-- The base URL read through `.get` starts with "http" when every configured
base URL does, since the hard-wired default does. -/
theorem base_startsWith {cfg : ScraperCfg} {cc : String}
    (hbase : ∀ b, cfg.base_urls cc = some b → pyStartsWith b "http" = true) :
    pyStartsWith ((cfg.base_urls cc).getD default_base_url) "http" = true := by
  cases hb : cfg.base_urls cc with
  | none => decide
  | some b => exact hbase b hb

/-- Inversion of a successful card: the record's identifying fields are fixed
by its construction at scraper lines 98-118. -/
theorem processCard_ok_some {cfg : ScraperCfg} {env : PyEnv} {card : JobCard}
    {cc : String} {j : Job} (h : processCard cfg env card cc = .ok (some j)) :
    ∃ title u, firstTextHit card title_selectors = .ok (some title) ∧
      firstHrefHit card url_selectors = .ok (some u) ∧
      j.title = title ∧
      j.url = (if pyStartsWith u "http" then u
        else if pyStartsWith u "/" then ((cfg.base_urls cc).getD default_base_url) ++ u
        else ((cfg.base_urls cc).getD default_base_url) ++ "/" ++ u) ∧
      j.id = cfg.md5hex j.url ∧ j.source = "ZipRecruiter" ∧ j.country = cc := by
  unfold processCard at h
  cases hsp : card.selectOne sponsored_selector with
  | error e => simp only [hsp, error_bind] at h; cases h
  | ok osp =>
    simp only [hsp, ok_bind] at h
    cases osp with
    | some e => cases h
    | none =>
      cases ht : firstTextHit card title_selectors with
      | error e => simp only [ht, error_bind] at h; cases h
      | ok ot =>
        simp only [ht, ok_bind] at h
        cases ot with
        | none => cases h
        | some title =>
          cases hu : firstHrefHit card url_selectors with
          | error e => simp only [hu, error_bind] at h; cases h
          | ok ou =>
            simp only [hu, ok_bind] at h
            cases ou with
            | none => cases h
            | some u =>
              cases hco : firstTextHit card company_selectors with
              | error e => simp only [hco, error_bind] at h; cases h
              | ok co =>
                simp only [hco, ok_bind] at h
                cases hlo : firstTextHit card location_selectors with
                | error e => simp only [hlo, error_bind] at h; cases h
                | ok lo =>
                  simp only [hlo, ok_bind] at h
                  cases hde : firstTextHit card description_selectors with
                  | error e => simp only [hde, error_bind] at h; cases h
                  | ok de =>
                    simp only [hde, ok_bind] at h
                    cases hjt : firstTextHit card job_type_selectors with
                    | error e => simp only [hjt, error_bind] at h; cases h
                    | ok jt =>
                      simp only [hjt, ok_bind] at h
                      cases hdp : firstTextHit card date_selectors with
                      | error e => simp only [hdp, error_bind] at h; cases h
                      | ok dp =>
                        simp only [hdp, ok_bind] at h
                        cases h
                        exact ⟨title, u, rfl, rfl, rfl, rfl, rfl, rfl, rfl⟩

/-- A card that is sponsored, title-less or URL-less yields no record. -/
theorem cardResult_none_of {cfg : ScraperCfg} {env : PyEnv} {cc : String}
    {c : JobCard}
    (h : (∃ e, c.selectOne sponsored_selector = .ok (some e)) ∨
         firstTextHit c title_selectors = .ok none ∨
         firstHrefHit c url_selectors = .ok none) :
    cardResult cfg env cc c = none := by
  have hp : processCard cfg env c cc = .error () ∨ processCard cfg env c cc = .ok none := by
    unfold processCard
    cases hsp : c.selectOne sponsored_selector with
    | error e => left; simp only [hsp, error_bind]
    | ok osp =>
      cases osp with
      | some e => right; simp only [hsp, ok_bind]; rfl
      | none =>
        have h' : firstTextHit c title_selectors = .ok none ∨
            firstHrefHit c url_selectors = .ok none := by
          rcases h with ⟨e, he⟩ | h' | h'
          · rw [hsp] at he; cases he
          · exact Or.inl h'
          · exact Or.inr h'
        cases ht : firstTextHit c title_selectors with
        | error e => left; simp only [hsp, ok_bind, ht, error_bind]
        | ok ot =>
          cases ot with
          | none => right; simp only [hsp, ok_bind, ht]; rfl
          | some title =>
            have hu : firstHrefHit c url_selectors = .ok none := by
              rcases h' with h' | h'
              · rw [ht] at h'; cases h'
              · exact h'
            right
            simp only [hsp, ok_bind, ht, hu]
            rfl
  unfold cardResult
  rcases hp with hp | hp <;> rw [hp]

/-! ## C3 -/

/-- C3: no record failure aborts the batch: a card whose processing raises is
skipped and the loop continues; extraction distributes over append, so every
record extracted before and after a failing card is kept; the function is
total by construction (`except Exception ... continue` at scraper lines
166-169). -/
theorem C3_batch_robust (cfg : ScraperCfg) (env : PyEnv) (cc : String) :
    (∀ l1 (c : JobCard) l2, processCard cfg env c cc = .error () →
       extract_job_listings cfg env (l1 ++ c :: l2) cc =
         extract_job_listings cfg env (l1 ++ l2) cc) ∧
    (∀ l1 l2, extract_job_listings cfg env (l1 ++ l2) cc =
       extract_job_listings cfg env l1 cc ++ extract_job_listings cfg env l2 cc) := by
  constructor
  · intro l1 c l2 h
    unfold extract_job_listings
    rw [List.filterMap_append, List.filterMap_append, List.filterMap_cons]
    have hc : cardResult cfg env cc c = none := by
      unfold cardResult
      rw [h]
    rw [hc]
  · intro l1 l2
    unfold extract_job_listings
    exact List.filterMap_append _ _ _

/-- Witness for C3 at a concrete failing card between two good cards. -/
theorem C3_witness :
    extract_job_listings trivCfg trivEnv [companyOkCard, errorCard, companyOkCard] "uk" =
      extract_job_listings trivCfg trivEnv [companyOkCard, companyOkCard] "uk" := by
  have h := (C3_batch_robust trivCfg trivEnv "uk").1 [companyOkCard] errorCard
    [companyOkCard] (by decide)
  exact h

/-! ## C2 -/

/-- C2 fails on the code: the per-card `try` wraps every field loop, so a
card whose only failure is the company lookup yields no record at all, while
the identical card with a benign company lookup yields one — the record is
not kept with the company field merely absent. -/
theorem C2_counterexample :
    processCard trivCfg trivEnv companyFailCard "uk" = .error () ∧
    extract_job_listings trivCfg trivEnv [companyFailCard] "uk" = [] ∧
    (extract_job_listings trivCfg trivEnv [companyOkCard] "uk").length = 1 := by
  refine ⟨by decide, by decide, by decide⟩

/-- C2 (amended): an exception raised while extracting a field is caught at
the per-card level: the batch continues, but the affected record is dropped
entirely rather than kept with the field absent; only `extract_salary` has
internal per-selector error handling, so salary lookup exceptions are treated
as misses and never abort anything. -/
theorem C2_field_failure (cfg : ScraperCfg) (env : PyEnv) (cc : String)
    (card : JobCard)
    (hspon : card.selectOne sponsored_selector = .ok none)
    (htitle : ∃ t, firstTextHit card title_selectors = .ok (some t))
    (hurl : ∃ u, firstHrefHit card url_selectors = .ok (some u))
    (hcomp : firstTextHit card company_selectors = .error ()) :
    processCard cfg env card cc = .error () ∧
    (∀ l1 l2, extract_job_listings cfg env (l1 ++ card :: l2) cc =
        extract_job_listings cfg env (l1 ++ l2) cc) ∧
    (∀ card' : JobCard, card'.fullText = card.fullText →
        (∀ sel ∈ salary_selectors,
          selHit (card'.selectOne sel) = selHit (card.selectOne sel)) →
        extract_salary env card' = extract_salary env card) := by
  obtain ⟨t, ht⟩ := htitle
  obtain ⟨u, hu⟩ := hurl
  have hpc : processCard cfg env card cc = .error () := by
    unfold processCard
    simp only [hspon, ok_bind, ht, hu, hcomp, error_bind]
  refine ⟨hpc, ?_, ?_⟩
  · intro l1 l2
    unfold extract_job_listings
    rw [List.filterMap_append, List.filterMap_append, List.filterMap_cons]
    have hc : cardResult cfg env cc card = none := by
      unfold cardResult
      rw [hpc]
    rw [hc]
  · intro card' hf hsel
    exact extract_salary_congr hf hsel

/-- Witness for C2 (amended) at the concrete failing card. -/
theorem C2_witness :
    processCard trivCfg trivEnv companyFailCard "uk" = .error () ∧
    extract_job_listings trivCfg trivEnv ([companyOkCard] ++ companyFailCard :: []) "uk" =
      extract_job_listings trivCfg trivEnv ([companyOkCard] ++ []) "uk" := by
  have h := C2_field_failure trivCfg trivEnv "uk" companyFailCard (by decide)
    ⟨"Software Developer", by decide⟩ ⟨"https://example.com/job/1", by decide⟩
    (by decide)
  exact ⟨h.1, h.2.1 [companyOkCard] []⟩

/-! ## C8 -/

/-- C8: every extracted record has a non-empty title, an http-prefixed URL
(relative URLs are prefixed with the country's base URL or the
ziprecruiter.com default), `id` the digest of the final URL, source
"ZipRecruiter", and the given country code; sponsored, title-less and
URL-less cards yield no record.  `base_urls` and the MD5 digest live outside
the sources and are abstract; the hypothesis records that configured base
URLs are http(s) URLs, as the hard-wired default is. -/
theorem C8_record_invariants (cfg : ScraperCfg) (env : PyEnv) (cc : String)
    (hbase : ∀ b, cfg.base_urls cc = some b → pyStartsWith b "http" = true)
    (cards : List JobCard) :
    (∀ j ∈ extract_job_listings cfg env cards cc,
       j.title ≠ "" ∧ pyStartsWith j.url "http" = true ∧ j.id = cfg.md5hex j.url ∧
       j.source = "ZipRecruiter" ∧ j.country = cc) ∧
    (∀ (c : JobCard) cs,
       ((∃ e, c.selectOne sponsored_selector = .ok (some e)) ∨
        firstTextHit c title_selectors = .ok none ∨
        firstHrefHit c url_selectors = .ok none) →
       extract_job_listings cfg env (c :: cs) cc =
         extract_job_listings cfg env cs cc) := by
  constructor
  · intro j hj
    obtain ⟨c, -, hc⟩ := List.mem_filterMap.mp hj
    have hpc : processCard cfg env c cc = .ok (some j) := by
      revert hc
      unfold cardResult
      cases hp : processCard cfg env c cc with
      | error e => intro hc; cases hc
      | ok o =>
        cases o with
        | none => intro hc; cases hc
        | some j' => intro hc; cases hc; rfl
    obtain ⟨title, u, ht, -, hjt, hjurl, hjid, hjsrc, hjcc⟩ := processCard_ok_some hpc
    refine ⟨hjt ▸ firstTextHit_ne_empty title_selectors ht, ?_, hjid, hjsrc, hjcc⟩
    rw [hjurl]
    by_cases h1 : pyStartsWith u "http" = true
    · rw [if_pos h1]; exact h1
    · rw [if_neg h1]
      by_cases h2 : pyStartsWith u "/" = true
      · rw [if_pos h2]
        exact pyStartsWith_append _ _ _ (base_startsWith hbase)
      · rw [if_neg h2]
        exact pyStartsWith_append _ _ _ (pyStartsWith_append _ _ _ (base_startsWith hbase))
  · intro c cs hskip
    unfold extract_job_listings
    rw [List.filterMap_cons, cardResult_none_of hskip]

/-- Witness for C8 at the concrete good card: the produced record satisfies
the invariants. -/
theorem C8_witness :
    okJob.title ≠ "" ∧ pyStartsWith okJob.url "http" = true ∧
    okJob.id = trivCfg.md5hex okJob.url ∧ okJob.source = "ZipRecruiter" ∧
    okJob.country = "uk" := by
  have h := (C8_record_invariants trivCfg trivEnv "uk"
    (fun b hb => Option.noConfusion hb) [companyOkCard]).1 okJob (by decide)
  exact h

/-! ## C5 -/

/-- A dictionary assignment never empties the dictionary. -/
theorem dUpsert_ne_nil (d : List (String × String)) (k v : String) :
    dUpsert d k v ≠ [] := by
  cases d with
  | nil => simp [dUpsert]
  | cons p ps => unfold dUpsert; split <;> simp

/-- A fold whose step preserves non-emptiness preserves non-emptiness. -/
theorem foldl_ne_nil {α : Type}
    (f : List (String × String) → α → List (String × String))
    (hf : ∀ st a, st ≠ [] → f st a ≠ []) :
    ∀ (l : List α) (st : List (String × String)), st ≠ [] → l.foldl f st ≠ []
  | [], _, h => h
  | a :: as, st, h => foldl_ne_nil f hf as (f st a) (hf st a h)

/-- The final-fallback stage always records at least one section. -/
theorem finalStage_ne_nil (t : String) : finalStage t ≠ [] := by
  unfold finalStage
  split
  · simp
  · dsimp only
    split
    · apply foldl_ne_nil
      · intro st a h
        dsimp only
        split
        · exact h
        · split
          · exact dUpsert_ne_nil _ _ _
          · split
            · exact dUpsert_ne_nil _ _ _
            · split
              · exact dUpsert_ne_nil _ _ _
              · split
                · exact dUpsert_ne_nil _ _ _
                · exact h
      · exact dUpsert_ne_nil _ _ _
    · simp

/-- `structure_description` yields a non-empty dictionary on any truthy
description text. -/
theorem structure_description_ne_nil (env : PyEnv) (text html : String)
    (h : text ≠ "") : structure_description env text html ≠ [] := by
  unfold structure_description
  split
  · exact finalStage_ne_nil text
  · next hcond =>
    intro h3
    exact hcond ⟨h3, h⟩

/-- C5: description structuring always yields a non-empty dictionary on a
non-empty description: through HTML headers, text-line headers, or the
bullet/length heuristics, at worst the single trimmed `job_overview`; and the
exception handler also yields that same at-worst dictionary. -/
theorem C5_structure_description_total (env : PyEnv) (text html : String)
    (h : text ≠ "") :
    structure_description env text html ≠ [] ∧
    structure_description_onError text = [("job_overview", pyStrip text)] ∧
    (htmlStage env html = [] → textSectionContent text = [] →
      bulletStage text [] = [] → text.length < 500 →
      structure_description env text html = [("job_overview", pyStrip text)]) := by
  refine ⟨structure_description_ne_nil env text html h, ?_, ?_⟩
  · unfold structure_description_onError
    rw [if_pos h]
  · intro h1 h2 h3 h4
    have hs2 : stage2 env text html = [] := by
      unfold stage2
      rw [h1, if_pos rfl, h2]
    have hs3 : stage3 env text html = [] := by
      unfold stage3
      rw [hs2]
      simp [h3]
    unfold structure_description
    rw [if_pos ⟨hs3, h⟩]
    unfold finalStage
    rw [if_pos h4]

/-- Witness for C5 at a concrete short text with no matching headers. -/
theorem C5_witness :
    structure_description trivEnv "hello" "" ≠ [] ∧
    structure_description trivEnv "hello" "" = [("job_overview", "hello")] := by
  have h := C5_structure_description_total trivEnv "hello" "" (by decide)
  refine ⟨h.1, ?_⟩
  have he := h.2.2 (by decide) (by decide) (by decide) (by decide)
  rw [he]
  decide

/-! ## C10 -/

/-- The pattern loop of `extract_job_type` only produces the seven standard
types. -/
theorem matchJobType_mem {env : PyEnv} {t s : String}
    (h : matchJobType env t = some s) : s ∈ seven_job_types := by
  obtain ⟨p, hp, hps⟩ := List.exists_of_findSome?_eq_some h
  revert hps
  split
  · intro h2; cases h2; exact List.mem_map_of_mem Prod.fst hp
  · intro h2; cases h2

/-- No standard job type is the empty string. -/
theorem seven_job_types_ne_empty : ∀ s ∈ seven_job_types, s ≠ "" := by
  decide

/-- The description stage only produces the seven standard types. -/
theorem jobTypeFromDescription_mem (env : PyEnv) (d : String) :
    jobTypeFromDescription env d ∈ seven_job_types := by
  unfold jobTypeFromDescription
  cases h2 : (env.reFindall2 job_type_ctx_pattern d).findSome?
      (fun pr => matchJobType env pr.2) with
  | some std =>
    obtain ⟨pr, -, hpr⟩ := List.exists_of_findSome?_eq_some h2
    exact matchJobType_mem hpr
  | none =>
    cases h3 : matchJobType env d with
    | some s => exact matchJobType_mem h3
    | none => decide

/-- The description stage defaults to "Full-time" when nothing matches. -/
theorem jobTypeFromDescription_default (env : PyEnv) (d : String)
    (hctx : ∀ pr ∈ env.reFindall2 job_type_ctx_pattern d, matchJobType env pr.2 = none)
    (hm : matchJobType env d = none) : jobTypeFromDescription env d = "Full-time" := by
  unfold jobTypeFromDescription
  rw [List.findSome?_eq_none_iff.mpr hctx, hm]
  rfl

/-- Unfolding of `extract_job_type` past its emptiness guard. -/
theorem extract_job_type_eq (env : PyEnv) (jtt dt : Option String)
    (hcond : (!optTruthy jtt && !optTruthy dt) = false) :
    extract_job_type env jtt dt =
      match (if optTruthy jtt = true then
          matchJobType env (pyLower (jtt.getD "")) else none) with
      | some std => std
      | none =>
        if optTruthy dt = true then jobTypeFromDescription env (pyLower (dt.getD ""))
        else "Full-time" := by
  unfold extract_job_type
  rw [if_neg (by simp [hcond])]

/-- C10: `extract_job_type` is total with a silent default: it returns the
empty string exactly when both inputs are falsy; otherwise it returns one of
the seven standardized types, prefers a job-type-text match over the
description, and returns "Full-time" when nothing matches at all. -/
theorem C10_extract_job_type_total (env : PyEnv) (jtt dt : Option String) :
    (extract_job_type env jtt dt = "" ↔
      optTruthy jtt = false ∧ optTruthy dt = false) ∧
    ((optTruthy jtt = true ∨ optTruthy dt = true) →
      extract_job_type env jtt dt ∈ seven_job_types) ∧
    (∀ std, optTruthy jtt = true →
      matchJobType env (pyLower (jtt.getD "")) = some std →
      extract_job_type env jtt dt = std) ∧
    ((optTruthy jtt = true ∨ optTruthy dt = true) →
      matchJobType env (pyLower (jtt.getD "")) = none →
      (∀ pr ∈ env.reFindall2 job_type_ctx_pattern (pyLower (dt.getD "")),
        matchJobType env pr.2 = none) →
      matchJobType env (pyLower (dt.getD "")) = none →
      extract_job_type env jtt dt = "Full-time") := by
  have hmem : (optTruthy jtt = true ∨ optTruthy dt = true) →
      extract_job_type env jtt dt ∈ seven_job_types := by
    intro hor
    have hcond : (!optTruthy jtt && !optTruthy dt) = false := by
      rcases hor with h | h <;> simp [h]
    rw [extract_job_type_eq env jtt dt hcond]
    cases h1 : (if optTruthy jtt = true then
        matchJobType env (pyLower (jtt.getD "")) else none) with
    | some std =>
      have hm : matchJobType env (pyLower (jtt.getD "")) = some std := by
        by_cases hj : optTruthy jtt = true
        · rw [if_pos hj] at h1; exact h1
        · rw [if_neg hj] at h1; cases h1
      exact matchJobType_mem hm
    | none =>
      by_cases hdt : optTruthy dt = true
      · rw [if_pos hdt]
        exact jobTypeFromDescription_mem env _
      · rw [if_neg hdt]
        decide
  refine ⟨⟨?_, ?_⟩, hmem, ?_, ?_⟩
  · intro he
    by_cases hj : optTruthy jtt = true
    · exact absurd he (seven_job_types_ne_empty _ (hmem (Or.inl hj)))
    · by_cases hd : optTruthy dt = true
      · exact absurd he (seven_job_types_ne_empty _ (hmem (Or.inr hd)))
      · exact ⟨Bool.not_eq_true _ ▸ hj, Bool.not_eq_true _ ▸ hd⟩
  · rintro ⟨h1, h2⟩
    unfold extract_job_type
    simp [h1, h2]
  · intro std hj hm
    rw [extract_job_type_eq env jtt dt (by simp [hj]), if_pos hj, hm]
  · intro hor hm1 hctx hm2
    have hcond : (!optTruthy jtt && !optTruthy dt) = false := by
      rcases hor with h | h <;> simp [h]
    rw [extract_job_type_eq env jtt dt hcond]
    have h1 : (if optTruthy jtt = true then
        matchJobType env (pyLower (jtt.getD "")) else none) = none := by
      split
      · exact hm1
      · rfl
    rw [h1]
    by_cases hdt : optTruthy dt = true
    · rw [if_pos hdt, jobTypeFromDescription_default env _ hctx hm2]
    · rw [if_neg hdt]

/-- Witness for C10 at concrete inputs under the trivial oracle. -/
theorem C10_witness :
    extract_job_type trivEnv (some "whatever") none ∈ seven_job_types ∧
    extract_job_type trivEnv none none = "" := by
  constructor
  · exact (C10_extract_job_type_total trivEnv (some "whatever") none).2.1
      (Or.inl (by decide))
  · exact (C10_extract_job_type_total trivEnv none none).1.mpr ⟨rfl, rfl⟩

/-! ## C7 -/

/-- C7 fails on the enumerated count: the header list of `export_to_csv` has
22 fields, not 21. -/
theorem C7_counterexample :
    ((export_to_csv []).headD []).length = 22 ∧
    ¬(((export_to_csv []).headD []).length = 21) := by
  decide

/-- `map` over a list only depends on the function's values on its members. -/
theorem map_congr_mem {α β : Type} {f g : α → β} :
    ∀ (l : List α), (∀ a ∈ l, f a = g a) → l.map f = l.map g
  | [], _ => rfl
  | a :: as, h => by
    rw [List.map_cons, List.map_cons, h a (List.mem_cons_self a as),
      map_congr_mem as (fun x hx => h x (List.mem_cons_of_mem a hx))]

/-- C7 (amended): `export_to_csv` serializes flat records over the enumerated
22-field header list: the header row first, one row per record in order, each
row listing exactly the header fields in header order, missing keys as empty
strings, and keys outside the header list ignored rather than failing. -/
theorem C7_csv_serialization (jobs : List (String → Option String)) :
    (export_to_csv jobs).length = jobs.length + 1 ∧
    (export_to_csv jobs).headD [] = csv_headers ∧
    csv_headers.length = 22 ∧
    List.tail (export_to_csv jobs) = jobs.map csvRow ∧
    (∀ rec : String → Option String, (csvRow rec).length = 22) ∧
    (∀ rec rec' : String → Option String,
      (∀ hd ∈ csv_headers, rec hd = rec' hd) → csvRow rec = csvRow rec') := by
  refine ⟨?_, ?_, ?_, ?_, ?_, ?_⟩
  · simp [export_to_csv]
  · rfl
  · decide
  · rfl
  · intro rec
    simp [csvRow, csv_headers]
  · intro rec rec' hr
    unfold csvRow
    exact map_congr_mem csv_headers (fun hd hhd => by rw [hr hd hhd])

/-- Witness for C7: the out-of-header key of the second record is ignored. -/
theorem C7_witness : csvRow csvRec1 = csvRow csvRec2 := by
  exact (C7_csv_serialization []).2.2.2.2.2 csvRec1 csvRec2 (by decide)

/-! ## Write-frame of the post-processing blocks -/

/-- The company block writes at most the company field. -/
theorem processCompany_eq (env : PyEnv) (j : Job) :
    ∃ c, processCompany env j = { j with company := c } := by
  unfold processCompany
  repeat' (first | split | dsimp only)
  all_goals exact ⟨_, rfl⟩

/-- The location block writes at most the location field. -/
theorem processLocation_eq (env : PyEnv) (j : Job) :
    ∃ l, processLocation env j = { j with location := l } := by
  unfold processLocation
  repeat' (first | split | dsimp only)
  all_goals exact ⟨_, rfl⟩

/-- The HTML block writes at most the HTML fields. -/
theorem processHtml_eq (env : PyEnv) (j : Job) :
    ∃ dh fd, processHtml env j =
      { j with description_html := dh, formatted_description := fd } := by
  unfold processHtml
  repeat' (first | split | dsimp only)
  all_goals exact ⟨_, _, rfl⟩

/-- The structured-description block writes at most its own field. -/
theorem processStructured_eq (env : PyEnv) (j : Job) :
    ∃ sd, processStructured env j = { j with structured_description := sd } := by
  unfold processStructured
  repeat' (first | split | dsimp only)
  all_goals exact ⟨_, rfl⟩

/-- The job-type block writes at most the two job-type fields. -/
theorem processJobType_eq (env : PyEnv) (j : Job) :
    ∃ st jt, processJobType env j =
      { j with standardized_job_type := st, job_type := jt } := by
  unfold processJobType
  repeat' (first | split | dsimp only)
  all_goals exact ⟨_, _, rfl⟩

/-- The skills block writes at most the skills field. -/
theorem processSkills_eq (env : PyEnv) (j : Job) :
    ∃ sk, processSkills env j = { j with skills := sk } := by
  unfold processSkills
  repeat' (first | split | dsimp only)
  all_goals exact ⟨_, rfl⟩

/-- The experience block writes at most the experience field. -/
theorem processExperience_eq (env : PyEnv) (j : Job) :
    ∃ e, processExperience env j = { j with experience := e } := by
  unfold processExperience
  repeat' (first | split | dsimp only)
  all_goals exact ⟨_, rfl⟩

/-- After the company block the company is never missing (runner line 187-188
is the final guard). -/
theorem processCompany_not_missing (env : PyEnv) (j : Job) :
    companyMissing (processCompany env j).company = false := by
  unfold processCompany
  split
  · dsimp only
    split
    · rfl
    · next h2 => exact Bool.not_eq_true _ ▸ h2
  · next h => exact Bool.not_eq_true _ ▸ h

/-- The company block does not touch an already acceptable company. -/
theorem processCompany_stable (env : PyEnv) (j : Job)
    (h : companyMissing j.company = false) :
    (processCompany env j).company = j.company := by
  unfold processCompany
  rw [if_neg (by simp [h])]

/-- The location block does not touch an already acceptable location. -/
theorem processLocation_stable (env : PyEnv) (j : Job)
    (h : locationMissing j.location = false) :
    (processLocation env j).location = j.location := by
  unfold processLocation
  rw [if_neg (by simp [h])]

/-- The location block fills a missing location of a UK job. -/
theorem processLocation_some_of_uk (env : PyEnv) (x : Job)
    (hm : locationMissing x.location = true) (huk : x.is_uk = some true) :
    (processLocation env x).location ≠ none := by
  unfold processLocation
  rw [if_pos hm]
  cases hd : x.description with
  | none => simp [huk, hd]
  | some d =>
    by_cases hde : d = ""
    · simp [huk, hd, hde]
    · cases hl : locationFromDesc env d with
      | none => simp [huk, hd, hde, hl]
      | some l => simp [huk, hd, hde, hl]

/-- The job-type block standardizes a present job type. -/
theorem processJobType_std (env : PyEnv) (x : Job) (jt : String)
    (h : x.job_type = some jt) :
    (processJobType env x).standardized_job_type =
      some (extract_job_type env (some jt) (some (x.description.getD ""))) := by
  unfold processJobType
  simp only [h]

/-- The skills block records found skills. -/
theorem processSkills_set (env : PyEnv) (x : Job) (d : String) (sk : List String)
    (hd : x.description = some d) (hsk : extract_skills env d = some sk) :
    (processSkills env x).skills = some sk := by
  unfold processSkills
  simp only [hd, hsk]

/-- The experience block records a found experience string. -/
theorem processExperience_set (env : PyEnv) (x : Job) (d e : String)
    (hd : x.description = some d) (he : extract_experience env d = some e) :
    (processExperience env x).experience = some e := by
  unfold processExperience
  simp only [hd, he]

/-- The structured-description block records a non-empty structure for any
record with a truthy description. -/
theorem processStructured_set (env : PyEnv) (x : Job) (d : String)
    (hd : x.description = some d) (hne : d ≠ "") :
    ∃ sd, (processStructured env x).structured_description = some sd ∧ sd ≠ [] := by
  unfold processStructured
  simp only [hd]
  have hne2 := structure_description_ne_nil env d (x.description_html.getD "") hne
  rw [if_pos hne2]
  exact ⟨_, rfl, hne2⟩

/-- Decomposition of `processJob`: it writes only the fields the blocks own,
with company and location coming from their blocks. -/
theorem processJob_decomp (env : PyEnv) (j : Job) :
    ∃ c l dh fd sd st jt sk ex,
      processJob env j =
        { j with company := c, location := l,
                 description_html := dh, formatted_description := fd,
                 structured_description := sd, standardized_job_type := st,
                 job_type := jt, skills := sk, experience := ex } ∧
      c = (processCompany env j).company ∧
      l = (processLocation env (processCompany env j)).location := by
  obtain ⟨c, e1⟩ := processCompany_eq env j
  obtain ⟨l, e2⟩ := processLocation_eq env (processCompany env j)
  obtain ⟨dh, fd, e3⟩ := processHtml_eq env
    (processLocation env (processCompany env j))
  obtain ⟨sd, e4⟩ := processStructured_eq env
    (processHtml env (processLocation env (processCompany env j)))
  obtain ⟨st, jt, e5⟩ := processJobType_eq env
    (processStructured env (processHtml env (processLocation env (processCompany env j))))
  obtain ⟨sk, e6⟩ := processSkills_eq env
    (processJobType env (processStructured env (processHtml env
      (processLocation env (processCompany env j)))))
  obtain ⟨ex, e7⟩ := processExperience_eq env
    (processSkills env (processJobType env (processStructured env (processHtml env
      (processLocation env (processCompany env j))))))
  have h2eq : processLocation env (processCompany env j) =
      { j with company := c, location := l } := by
    rw [e2, e1]
  have h3eq : processHtml env (processLocation env (processCompany env j)) =
      { j with company := c, location := l, description_html := dh,
               formatted_description := fd } := by
    rw [e3, h2eq]
  have h4eq : processStructured env (processHtml env (processLocation env
      (processCompany env j))) =
      { j with company := c, location := l, description_html := dh,
               formatted_description := fd, structured_description := sd } := by
    rw [e4, h3eq]
  have h5eq : processJobType env (processStructured env (processHtml env
      (processLocation env (processCompany env j)))) =
      { j with company := c, location := l, description_html := dh,
               formatted_description := fd, structured_description := sd,
               standardized_job_type := st, job_type := jt } := by
    rw [e5, h4eq]
  have h6eq : processSkills env (processJobType env (processStructured env
      (processHtml env (processLocation env (processCompany env j))))) =
      { j with company := c, location := l, description_html := dh,
               formatted_description := fd, structured_description := sd,
               standardized_job_type := st, job_type := jt, skills := sk } := by
    rw [e6, h5eq]
  refine ⟨c, l, dh, fd, sd, st, jt, sk, ex, ?_, ?_, ?_⟩
  · unfold processJob
    rw [e7, h6eq]
  · rw [e1]
  · rw [e2]

/-! ## C6 -/

/-- C6: post-processing maps each record in place — the output list has the
same length with the i-th output derived from the i-th input — and never
modifies title, url or id, nor an already populated company or location. -/
theorem C6_frame (env : PyEnv) (jobs : List Job) :
    post_process_job_data env jobs = jobs.map (processJob env) ∧
    (post_process_job_data env jobs).length = jobs.length ∧
    (∀ j : Job, (processJob env j).title = j.title ∧
      (processJob env j).url = j.url ∧ (processJob env j).id = j.id) ∧
    (∀ j : Job, companyMissing j.company = false →
      (processJob env j).company = j.company) ∧
    (∀ j : Job, locationMissing j.location = false →
      (processJob env j).location = j.location) := by
  refine ⟨rfl, by simp [post_process_job_data], ?_, ?_, ?_⟩
  · intro j
    obtain ⟨c, l, dh, fd, sd, st, jt, sk, ex, hj, -, -⟩ := processJob_decomp env j
    rw [hj]
    exact ⟨rfl, rfl, rfl⟩
  · intro j h
    obtain ⟨c, l, dh, fd, sd, st, jt, sk, ex, hj, hc, -⟩ := processJob_decomp env j
    rw [hj]
    show c = j.company
    rw [hc]
    exact processCompany_stable env j h
  · intro j h
    obtain ⟨c, l, dh, fd, sd, st, jt, sk, ex, hj, -, hl⟩ := processJob_decomp env j
    obtain ⟨c1, e1⟩ := processCompany_eq env j
    have hl1 : (processCompany env j).location = j.location := by rw [e1]
    rw [hj]
    show l = j.location
    rw [hl, processLocation_stable env _ (by rw [hl1]; exact h), hl1]

/-- Witness for C6 at the concrete populated record. -/
theorem C6_witness :
    (processJob trivEnv wJob).company = some "Acme Ltd" ∧
    (processJob trivEnv wJob).location = some "London" ∧
    (processJob trivEnv wJob).title = "Dev" ∧
    (processJob trivEnv wJob).url = "https://example.com/job/1" ∧
    (processJob trivEnv wJob).id = "id0" := by
  have h := C6_frame trivEnv [wJob]
  refine ⟨?_, ?_, (h.2.2.1 wJob).1, (h.2.2.1 wJob).2.1, (h.2.2.1 wJob).2.2⟩
  · rw [h.2.2.2.1 wJob (by decide)]; rfl
  · rw [h.2.2.2.2 wJob (by decide)]; rfl

/-! ## C4 -/

/-- C4 fails on the code: `post_process_job_data` never touches the salary
field, even for a record whose salary is missing while its description
mentions a salary; the pass does enrich the record otherwise (so it is not a
no-op). -/
theorem C4_counterexample :
    wJob.salary = none ∧
    (post_process_job_data trivEnv [wJob]).headD wJob = processJob trivEnv wJob ∧
    (processJob trivEnv wJob).salary = none ∧
    processJob trivEnv wJob ≠ wJob := by
  refine ⟨rfl, rfl, ?_, ?_⟩
  · obtain ⟨c, l, dh, fd, sd, st, jt, sk, ex, hj, -, -⟩ :=
      processJob_decomp trivEnv wJob
    rw [hj]
    rfl
  · decide

/-- C4 (amended): the secondary pass normalizes/enriches company, location,
job type, skills, experience and the structured description, but not salary:
the salary field is preserved exactly as the initial extraction left it. -/
theorem C4_post_process_enrichment (env : PyEnv) (j : Job) :
    (processJob env j).salary = j.salary ∧
    companyMissing (processJob env j).company = false ∧
    (locationMissing j.location = true → j.is_uk = some true →
      (processJob env j).location ≠ none) ∧
    (∀ jt, j.job_type = some jt →
      (processJob env j).standardized_job_type =
        some (extract_job_type env (some jt) (some (j.description.getD "")))) ∧
    (∀ d sk, j.description = some d → extract_skills env d = some sk →
      (processJob env j).skills = some sk) ∧
    (∀ d e, j.description = some d → extract_experience env d = some e →
      (processJob env j).experience = some e) ∧
    (∀ d, j.description = some d → d ≠ "" →
      ∃ sd, (processJob env j).structured_description = some sd ∧ sd ≠ []) ∧
    post_process_job_data env [j] = [processJob env j] := by
  obtain ⟨c1, e1⟩ := processCompany_eq env j
  obtain ⟨l2, e2⟩ := processLocation_eq env (processCompany env j)
  obtain ⟨dh3, fd3, e3⟩ := processHtml_eq env
    (processLocation env (processCompany env j))
  have h3eq : processHtml env (processLocation env (processCompany env j)) =
      { j with company := c1, location := l2, description_html := dh3,
               formatted_description := fd3 } := by
    rw [e3, e2, e1]
  obtain ⟨sd4, e4⟩ := processStructured_eq env
    (processHtml env (processLocation env (processCompany env j)))
  have h4eq : processStructured env (processHtml env (processLocation env
      (processCompany env j))) =
      { j with company := c1, location := l2, description_html := dh3,
               formatted_description := fd3, structured_description := sd4 } := by
    rw [e4, h3eq]
  obtain ⟨st5, jt5, e5⟩ := processJobType_eq env
    (processStructured env (processHtml env (processLocation env (processCompany env j))))
  have h5eq : processJobType env (processStructured env (processHtml env
      (processLocation env (processCompany env j)))) =
      { j with company := c1, location := l2, description_html := dh3,
               formatted_description := fd3, structured_description := sd4,
               standardized_job_type := st5, job_type := jt5 } := by
    rw [e5, h4eq]
  obtain ⟨sk6, e6⟩ := processSkills_eq env
    (processJobType env (processStructured env (processHtml env
      (processLocation env (processCompany env j)))))
  have h6eq : processSkills env (processJobType env (processStructured env
      (processHtml env (processLocation env (processCompany env j))))) =
      { j with company := c1, location := l2, description_html := dh3,
               formatted_description := fd3, structured_description := sd4,
               standardized_job_type := st5, job_type := jt5, skills := sk6 } := by
    rw [e6, h5eq]
  obtain ⟨ex7, e7⟩ := processExperience_eq env
    (processSkills env (processJobType env (processStructured env (processHtml env
      (processLocation env (processCompany env j))))))
  have hJ : processJob env j =
      { j with company := c1, location := l2, description_html := dh3,
               formatted_description := fd3, structured_description := sd4,
               standardized_job_type := st5, job_type := jt5, skills := sk6,
               experience := ex7 } := by
    unfold processJob
    rw [e7, h6eq]
  refine ⟨by rw [hJ], ?_, ?_, ?_, ?_, ?_, ?_, rfl⟩
  · rw [hJ]
    show companyMissing c1 = false
    have hc1 : c1 = (processCompany env j).company := by rw [e1]
    rw [hc1]
    exact processCompany_not_missing env j
  · intro hm huk
    have hm' : locationMissing (processCompany env j).location = true := by
      rw [e1]; exact hm
    have huk' : (processCompany env j).is_uk = some true := by
      rw [e1]; exact huk
    have hx := processLocation_some_of_uk env (processCompany env j) hm' huk'
    have hl2 : (processLocation env (processCompany env j)).location = l2 := by
      rw [e2]
    rw [hJ]
    show l2 ≠ none
    rw [← hl2]
    exact hx
  · intro jt hjt
    have h45 := processJobType_std env (processStructured env (processHtml env
      (processLocation env (processCompany env j)))) jt (by rw [h4eq]; exact hjt)
    have hX4d : (processStructured env (processHtml env (processLocation env
        (processCompany env j)))).description = j.description := by rw [h4eq]
    rw [hX4d] at h45
    have hpres : (processJob env j).standardized_job_type =
        (processJobType env (processStructured env (processHtml env
          (processLocation env (processCompany env j))))).standardized_job_type := by
      rw [hJ, h5eq]
    rw [hpres, h45]
  · intro d sk hd hsk
    have h56 := processSkills_set env (processJobType env (processStructured env
      (processHtml env (processLocation env (processCompany env j))))) d sk
      (by rw [h5eq]; exact hd) hsk
    have hpres : (processJob env j).skills =
        (processSkills env (processJobType env (processStructured env (processHtml env
          (processLocation env (processCompany env j)))))).skills := by
      rw [hJ, h6eq]
    rw [hpres, h56]
  · intro d e hd he
    have h67 := processExperience_set env (processSkills env (processJobType env
      (processStructured env (processHtml env (processLocation env
        (processCompany env j)))))) d e (by rw [h6eq]; exact hd) he
    show (processExperience env (processSkills env (processJobType env
      (processStructured env (processHtml env (processLocation env
        (processCompany env j))))))).experience = some e
    exact h67
  · intro d hd hne
    obtain ⟨sd, hsd, hsdne⟩ := processStructured_set env (processHtml env
      (processLocation env (processCompany env j))) d (by rw [h3eq]; exact hd) hne
    have hsd4 : sd4 = some sd := by
      rw [← hsd, e4, h3eq]
    refine ⟨sd, ?_, hsdne⟩
    rw [hJ]
    show sd4 = some sd
    exact hsd4

/-- Witness for C4 (amended) at the concrete record: salary is preserved, the
company stays acceptable, and the description is structured. -/
theorem C4_witness :
    (processJob trivEnv wJob).salary = none ∧
    companyMissing (processJob trivEnv wJob).company = false ∧
    ∃ sd, (processJob trivEnv wJob).structured_description = some sd ∧ sd ≠ [] := by
  have h := C4_post_process_enrichment trivEnv wJob
  exact ⟨h.1, h.2.1,
    h.2.2.2.2.2.2.1 "Salary: £50,000 per annum" rfl (by decide)⟩

end ZRS
